import Mathlib

/-!
# Verification of the sales-management ingestion pipeline

A shallow embedding of the heuristic spreadsheet-ingestion core of the
repository (`data_processor.py`, `database.py`, `sales_data_processor.py`),
together with proofs and refutations of the specification's claims about it.

Strings are manipulated through their underlying character lists
(`String.data`), with small hand-rolled helpers mirroring the Python
operations (`str.strip`, substring tests, `str.split`, `int(...)`,
zero-padded formatting).
-/

namespace SalesMgmt

/-! ## Character and digit utilities -/

/-- Decimal digit test, mirroring the character class accepted by
Python `int(...)` for the digit positions. -/
def isDigitCh (c : Char) : Bool := '0' ≤ c && c ≤ '9'

/-- Whitespace as stripped by Python `str.strip()` (the common cases). -/
def isWs (c : Char) : Bool :=
  c = ' ' || c = '\t' || c = '\n' || c = '\r'

/-- Numeric value of a digit character. -/
def digitVal (c : Char) : ℕ := c.toNat - '0'.toNat

/-- The digit character for `n < 10`. -/
def digitCh (n : ℕ) : Char :=
  match n with
  | 0 => '0' | 1 => '1' | 2 => '2' | 3 => '3' | 4 => '4'
  | 5 => '5' | 6 => '6' | 7 => '7' | 8 => '8' | _ => '9'

/-- Value of a digit string read left to right. -/
def chsVal (l : List Char) : ℕ := l.foldl (fun a c => 10 * a + digitVal c) 0

/-- All characters are decimal digits. -/
def allDigits (l : List Char) : Bool := l.all isDigitCh

/-- Decimal digits of `n`, most significant first (fuel-based so that it
reduces definitionally). -/
def natDigsF : ℕ → ℕ → List Char
  | 0, _ => []
  | fuel + 1, n =>
    if n < 10 then [digitCh n] else natDigsF fuel (n / 10) ++ [digitCh (n % 10)]

/-- Decimal digits of `n`, most significant first. -/
def natDigs (n : ℕ) : List Char := natDigsF (n + 1) n

/-- `n` rendered zero-padded to width `w`, like Python `f"{n:0wd}"` for
nonnegative `n`. -/
def padNat (w n : ℕ) : List Char :=
  List.replicate (w - (natDigs n).length) '0' ++ natDigs n

/-- Python `str.strip()` on a character list. -/
def pyStrip (l : List Char) : List Char :=
  ((l.dropWhile isWs).reverse.dropWhile isWs).reverse

/-- `String` wrapper for `pyStrip`. -/
def stripStr (s : String) : String := String.mk (pyStrip s.data)

/-- Parse a nonempty all-digit character list as a natural number. -/
def parseNatL (l : List Char) : Option ℕ :=
  if l.isEmpty then none
  else if allDigits l then some (chsVal l) else none

/-- Python `int(s)` restricted to unsigned decimal numerals: surrounding
whitespace is stripped, then the remainder must be a nonempty digit string.
(Python `int` additionally accepts a sign, which no caller in the embedded
code paths can produce.) -/
def parsePyNat (l : List Char) : Option ℕ := parseNatL (pyStrip l)

/-- ASCII lower-casing of one character (Python `str.lower` restricted to
the ASCII range, which covers every keyword comparison in the pipeline). -/
def lowerCh (c : Char) : Char :=
  if 'A' ≤ c && c ≤ 'Z' then Char.ofNat (c.toNat + 32) else c

/-- ASCII upper-casing of one character. -/
def upperCh (c : Char) : Char :=
  if 'a' ≤ c && c ≤ 'z' then Char.ofNat (c.toNat - 32) else c

/-- Python `str.lower()`. -/
def strLower (s : String) : String := String.mk (s.data.map lowerCh)

/-- Python `str.upper()`. -/
def strUpper (s : String) : String := String.mk (s.data.map upperCh)

/-- Python `needle in haystack` substring test on character lists. -/
def hasSubstr (pat : List Char) : List Char → Bool
  | [] => pat.isEmpty
  | c :: rest => pat.isPrefixOf (c :: rest) || hasSubstr pat rest

/-- Substring test on strings, mirroring Python `a in b`. -/
def strContains (needle hay : String) : Bool := hasSubstr needle.data hay.data

/-- Split a character list at every occurrence of `sep`, like Python
`str.split(sep)` for a single-character separator. -/
def splitOnCh (sep : Char) : List Char → List (List Char)
  | [] => [[]]
  | c :: rest =>
    if c = sep then [] :: splitOnCh sep rest
    else
      match splitOnCh sep rest with
      | [] => [[c]]
      | p :: ps => (c :: p) :: ps

/-! ### Lemmas about the digit machinery -/

theorem digitVal_digitCh (n : ℕ) (h : n < 10) : digitVal (digitCh n) = n := by
  interval_cases n <;> rfl

theorem isDigitCh_digitCh (n : ℕ) (h : n < 10) : isDigitCh (digitCh n) = true := by
  interval_cases n <;> rfl

theorem chsVal_append_singleton (l : List Char) (c : Char) :
    chsVal (l ++ [c]) = 10 * chsVal l + digitVal c := by
  simp [chsVal, List.foldl_append]

theorem natDigsF_ne_nil (fuel n : ℕ) (h : n < fuel) : natDigsF fuel n ≠ [] := by
  cases fuel with
  | zero => omega
  | succ f =>
    simp only [natDigsF]
    split
    · simp
    · simp

theorem chsVal_natDigsF (fuel : ℕ) : ∀ n, n < fuel → chsVal (natDigsF fuel n) = n := by
  induction fuel with
  | zero => intro n h; omega
  | succ f ih =>
    intro n h
    simp only [natDigsF]
    split
    · next h10 =>
      simp [chsVal, digitVal_digitCh n h10]
    · next h10 =>
      push_neg at h10
      have hdiv : n / 10 < f := by
        have h1 : n / 10 < n := Nat.div_lt_self (by omega) (by norm_num)
        omega
      rw [chsVal_append_singleton, ih _ hdiv, digitVal_digitCh _ (Nat.mod_lt n (by norm_num))]
      omega

theorem chsVal_natDigs (n : ℕ) : chsVal (natDigs n) = n :=
  chsVal_natDigsF (n + 1) n (Nat.lt_succ_self n)

theorem natDigs_ne_nil (n : ℕ) : natDigs n ≠ [] :=
  natDigsF_ne_nil (n + 1) n (Nat.lt_succ_self n)

theorem allDigits_natDigsF (fuel : ℕ) :
    ∀ n, n < fuel → allDigits (natDigsF fuel n) = true := by
  induction fuel with
  | zero => intro n h; omega
  | succ f ih =>
    intro n h
    simp only [natDigsF]
    split
    · next h10 => simp [allDigits, isDigitCh_digitCh n h10]
    · next h10 =>
      push_neg at h10
      have hdiv : n / 10 < f := by
        have h1 : n / 10 < n := Nat.div_lt_self (by omega) (by norm_num)
        omega
      have hmod := isDigitCh_digitCh (n % 10) (Nat.mod_lt n (by norm_num))
      have := ih _ hdiv
      simp only [allDigits, List.all_append, List.all_cons, List.all_nil] at *
      simp [this, hmod]

theorem allDigits_natDigs (n : ℕ) : allDigits (natDigs n) = true :=
  allDigits_natDigsF (n + 1) n (Nat.lt_succ_self n)

theorem natDigsF_length_le (fuel : ℕ) :
    ∀ n k, n < fuel → n < 10 ^ k → 1 ≤ k → (natDigsF fuel n).length ≤ k := by
  induction fuel with
  | zero => intro n k h; omega
  | succ f ih =>
    intro n k h hk h1
    simp only [natDigsF]
    split
    · simp; omega
    · next h10 =>
      push_neg at h10
      have hdiv : n / 10 < f := by
        have h1' : n / 10 < n := Nat.div_lt_self (by omega) (by norm_num)
        omega
      have hk2 : 2 ≤ k := by
        by_contra hc
        have : k = 1 := by omega
        subst this
        simp at hk
        omega
      have hpow : n / 10 < 10 ^ (k - 1) := by
        have : n < 10 * 10 ^ (k - 1) := by
          have : 10 ^ k = 10 * 10 ^ (k - 1) := by
            conv_lhs => rw [show k = 1 + (k - 1) by omega]
            rw [pow_add, pow_one]
          omega
        omega
      have := ih (n / 10) (k - 1) hdiv hpow (by omega)
      simp only [List.length_append, List.length_cons, List.length_nil]
      omega

theorem natDigs_length_le (n k : ℕ) (hk : n < 10 ^ k) (h1 : 1 ≤ k) :
    (natDigs n).length ≤ k :=
  natDigsF_length_le (n + 1) n k (Nat.lt_succ_self n) hk h1

theorem chsVal_replicate_zero (k : ℕ) (l : List Char) :
    chsVal (List.replicate k '0' ++ l) = chsVal l := by
  induction k with
  | zero => simp
  | succ m ih =>
    simp only [List.replicate_succ, List.cons_append]
    simpa [chsVal, digitVal] using ih

theorem allDigits_padNat (w n : ℕ) : allDigits (padNat w n) = true := by
  simp only [padNat, allDigits, List.all_append, Bool.and_eq_true]
  constructor
  · simp only [List.all_eq_true]
    intro c hc
    have hcc := List.eq_of_mem_replicate hc
    subst hcc
    rfl
  · exact allDigits_natDigs n

theorem padNat_ne_nil (w n : ℕ) : padNat w n ≠ [] := by
  simp only [padNat]
  intro h
  rcases List.append_eq_nil.mp h with ⟨_, h2⟩
  exact natDigs_ne_nil n h2

theorem chsVal_padNat (w n : ℕ) : chsVal (padNat w n) = n := by
  rw [padNat, chsVal_replicate_zero, chsVal_natDigs]

theorem parseNatL_padNat (w n : ℕ) : parseNatL (padNat w n) = some n := by
  simp [parseNatL, List.isEmpty_iff, padNat_ne_nil, allDigits_padNat, chsVal_padNat]

/-! ### Lemmas about strip / split -/

theorem dropWhile_eq_self_of_not_head {p : Char → Bool} :
    ∀ l : List Char, (∀ c ∈ l, p c = false) → l.dropWhile p = l := by
  intro l h
  cases l with
  | nil => rfl
  | cons a l =>
    rw [List.dropWhile_cons_of_neg]
    simp [h a (List.mem_cons_self a l)]

theorem pyStrip_eq_self (l : List Char) (h : ∀ c ∈ l, isWs c = false) :
    pyStrip l = l := by
  unfold pyStrip
  rw [dropWhile_eq_self_of_not_head l h,
      dropWhile_eq_self_of_not_head l.reverse (by intro c hc; exact h c (List.mem_reverse.mp hc)),
      List.reverse_reverse]

theorem splitOnCh_of_not_mem (sep : Char) :
    ∀ l : List Char, sep ∉ l → splitOnCh sep l = [l] := by
  intro l h
  induction l with
  | nil => rfl
  | cons c rest ih =>
    have hc : ¬(c = sep) := fun hh => h (hh ▸ List.mem_cons_self c rest)
    have hr : sep ∉ rest := fun hh => h (List.mem_cons_of_mem c hh)
    simp only [splitOnCh, if_neg hc, ih hr]

theorem splitOnCh_append (sep : Char) (a b : List Char) (ha : sep ∉ a) :
    splitOnCh sep (a ++ sep :: b) = a :: splitOnCh sep b := by
  induction a with
  | nil => simp [splitOnCh]
  | cons c rest ih =>
    have hc : ¬(c = sep) := fun hh => ha (hh ▸ List.mem_cons_self c rest)
    have hr : sep ∉ rest := fun hh => ha (List.mem_cons_of_mem c hh)
    simp only [List.cons_append, splitOnCh, if_neg hc]
    rw [show rest.append (sep :: b) = rest ++ sep :: b from rfl, ih hr]

/-! ## Python float values

The pipeline's numeric cells are Python floats.  Finite values are modelled
exactly as rationals; the non-finite values `inf`, `-inf` and `nan` are
explicit constructors, so that the IEEE-754 comparison and propagation rules
the Python code relies on can be stated faithfully. -/

inductive PyFloat where
  | finite (q : ℚ)
  | posInf
  | negInf
  | nan
  deriving DecidableEq

/-- Exact rational addition, written through `mkRat` so that it reduces in
the kernel; equal to `+` on `ℚ` (`ratAdd_eq`). -/
def ratAdd (a b : ℚ) : ℚ := mkRat (a.num * b.den + b.num * a.den) (a.den * b.den)

/-- Exact rational multiplication through `mkRat`; equal to `*` on `ℚ`. -/
def ratMul (a b : ℚ) : ℚ := mkRat (a.num * b.num) (a.den * b.den)

/-- Exact rational division through `Rat.divInt`; equal to `/` on `ℚ`. -/
def ratDiv (a b : ℚ) : ℚ := Rat.divInt (a.num * b.den) (a.den * b.num)

theorem ratAdd_eq (a b : ℚ) : ratAdd a b = a + b := (Rat.add_def' a b).symm

theorem ratMul_eq (a b : ℚ) : ratMul a b = a * b := by
  rw [ratMul, ← Rat.normalize_eq_mkRat (Nat.mul_ne_zero a.den_nz b.den_nz), ← Rat.mul_def]

theorem ratDiv_eq (a b : ℚ) : ratDiv a b = a / b := (Rat.div_def' a b).symm

/-- Python `<` on floats (`nan` compares false with everything). -/
def pyLt : PyFloat → PyFloat → Bool
  | .finite a, .finite b => a < b
  | .finite _, .posInf => true
  | .negInf, .finite _ => true
  | .negInf, .posInf => true
  | _, _ => false

/-- Python `<=` on floats. -/
def pyLe : PyFloat → PyFloat → Bool
  | .finite a, .finite b => a ≤ b
  | .finite _, .posInf => true
  | .negInf, .negInf => true
  | .negInf, .finite _ => true
  | .negInf, .posInf => true
  | .posInf, .posInf => true
  | _, _ => false

/-- Python `+` on floats. -/
def pyAdd : PyFloat → PyFloat → PyFloat
  | .finite a, .finite b => .finite (ratAdd a b)
  | .finite _, x => x
  | x, .finite _ => x
  | .posInf, .posInf => .posInf
  | .negInf, .negInf => .negInf
  | _, _ => .nan

/-- Python `*` on floats. -/
def pyMul : PyFloat → PyFloat → PyFloat
  | .finite a, .finite b => .finite (ratMul a b)
  | .nan, _ => .nan
  | _, .nan => .nan
  | .posInf, .posInf => .posInf
  | .posInf, .negInf => .negInf
  | .negInf, .posInf => .negInf
  | .negInf, .negInf => .posInf
  | .posInf, .finite b => if 0 < b then .posInf else if b < 0 then .negInf else .nan
  | .negInf, .finite b => if 0 < b then .negInf else if b < 0 then .posInf else .nan
  | .finite a, .posInf => if 0 < a then .posInf else if a < 0 then .negInf else .nan
  | .finite a, .negInf => if 0 < a then .negInf else if a < 0 then .posInf else .nan

/-- Python `/` on floats.  A finite (or infinite) value divided by finite
zero raises `ZeroDivisionError` in Python; every division in the embedded
pipeline is guarded by a strictly-positive denominator check, so that branch
is unreachable and is mapped to `nan` only to keep the function total. -/
def pyDiv : PyFloat → PyFloat → PyFloat
  | .finite a, .finite b => if b = 0 then .nan else .finite (ratDiv a b)
  | .nan, _ => .nan
  | _, .nan => .nan
  | .posInf, .posInf => .nan
  | .posInf, .negInf => .nan
  | .negInf, .posInf => .nan
  | .negInf, .negInf => .nan
  | .finite _, .posInf => .finite 0
  | .finite _, .negInf => .finite 0
  | .posInf, .finite b => if b < 0 then .negInf else .posInf
  | .negInf, .finite b => if b < 0 then .posInf else .negInf

/-- Python `sum(...)` over a list of floats (initial accumulator `0`). -/
def pySum (l : List PyFloat) : PyFloat := l.foldl pyAdd (.finite 0)

/-! ### Python `float(str)` -/

/-- Exponent suffix of a float literal: empty, or `e`/`E` followed by an
optionally signed nonempty digit string. -/
def parseExpPart : List Char → Option ℤ
  | [] => some 0
  | c :: r =>
    if c = 'e' then
      match r with
      | '+' :: d => (parseNatL d).map (fun n => (n : ℤ))
      | '-' :: d => (parseNatL d).map (fun n => -(n : ℤ))
      | d => (parseNatL d).map (fun n => (n : ℤ))
    else none

/-- The exact rational `m / 10^(-e)` resp. `m·10^e`, i.e. the value of a
decimal mantissa `m` scaled by ten to the signed exponent `e`. -/
def mantissaTimesPow10 (m : ℕ) (scale : ℕ) (e : ℤ) : ℚ :=
  if 0 ≤ e then mkRat (m * 10 ^ e.toNat) (10 ^ scale)
  else mkRat m (10 ^ scale * 10 ^ (-e).toNat)

/-- Unsigned decimal body of a float literal: `digits [. digits] [exp]`,
with at least one digit in the mantissa.  The value
`(ip + fp/10^|fp|) · 10^e` is built with `mkRat` (idealized: Python rounds
it to the nearest double, we keep it exact). -/
def parseFloatBody (l : List Char) : Option ℚ :=
  let ip := l.takeWhile isDigitCh
  let rest := l.dropWhile isDigitCh
  let fp := match rest with
    | '.' :: r => r.takeWhile isDigitCh
    | _ => []
  let rest2 := match rest with
    | '.' :: r => r.dropWhile isDigitCh
    | _ => rest
  if ip.isEmpty && fp.isEmpty then none
  else
    match parseExpPart rest2 with
    | none => none
    | some e =>
      some (mantissaTimesPow10 (chsVal ip * 10 ^ fp.length + chsVal fp) fp.length e)

/-- Python `float(s)`: strip surrounding whitespace, read an optional sign,
then either `inf`/`infinity`/`nan` (case-insensitively) or a decimal
literal; `none` models a raised `ValueError`. -/
def pyFloatOfString (s : String) : Option PyFloat :=
  let l := (pyStrip s.data).map lowerCh
  let signBody : Bool × List Char :=
    match l with
    | '-' :: r => (true, r)
    | '+' :: r => (false, r)
    | _ => (false, l)
  let neg := signBody.1
  let body := signBody.2
  if body = ['i', 'n', 'f'] || body = ['i', 'n', 'f', 'i', 'n', 'i', 't', 'y'] then
    some (if neg then .negInf else .posInf)
  else if body = ['n', 'a', 'n'] then
    some .nan
  else
    match parseFloatBody body with
    | some q => some (.finite (if neg then -q else q))
    | none => none

/-- A raw spreadsheet cell as seen by the numeric normalizers: missing
(`None`/`NaN` found by `pd.isna`), a numeric value, or a string. -/
inductive Cell where
  | na
  | num (x : PyFloat)
  | str (s : String)

/-- `SalesDataProcessor.safe_float` (sales_data_processor.py): blank cell,
the sentinel strings, a float `NaN` (caught by `pd.isna`) and unparsable
strings all map to `0.0`; otherwise `float(value)`. -/
def safe_float : Cell → PyFloat
  | .na => .finite 0
  | .num .nan => .finite 0
  | .num x => x
  | .str s =>
    if s = "" || s = "NOT_AVAILABLE" || s = "_" then .finite 0
    else (pyFloatOfString s).getD (.finite 0)

/-- `DataProcessor._safe_float` (data_processor.py): `pd.isna` (so also a
float `NaN`) maps to `0.0`, otherwise `float(value)` with failures mapped
to `0.0`. -/
def dpSafeFloat : Cell → PyFloat
  | .na => .finite 0
  | .num .nan => .finite 0
  | .num x => x
  | .str s => (pyFloatOfString s).getD (.finite 0)

/-- The rate computation of `DataProcessor.process_sales_sheet`
(data_processor.py line 479): `amount / quantity if quantity > 0 else 0`. -/
def rateCalc (amount quantity : PyFloat) : PyFloat :=
  if pyLt (.finite 0) quantity then pyDiv amount quantity else .finite 0

/-- The demo conversion-rate computation of
`AnalyticsManager.get_demo_conversion_rates` (analytics.py line 127):
`(converted / total) * 100 if total > 0 else 0`, with integer row counts. -/
def demoConversionRate (converted total : ℕ) : PyFloat :=
  if 0 < total then pyMul (pyDiv (.finite converted) (.finite total)) (.finite 100)
  else .finite 0

/-! ## Sheet classifier

`DataProcessor` cleans every sheet's column labels (`_clean_dataframe`
upper-cases them) and then scores them against per-kind keyword lists.
When a Python method is defined twice in the class body, the later
definition wins; the embeddings below follow the later (effective)
definitions of `_is_sales_sheet`, `_is_customer_sheet`,
`_is_distributor_sheet` and `_is_payment_sheet`. -/

/-- Keyword list of the effective `_is_sales_sheet` (data_processor.py 404). -/
def salesIndicators : List String :=
  ["invoice", "sale", "amount", "product", "quantity", "rate",
   "total", "price", "bill", "payment", "item", "qty"]

/-- Keyword list of `_is_payment_sheet` (data_processor.py 537). -/
def paymentIndicators : List String :=
  ["payment", "paid", "amount", "invoice", "date", "method",
   "cash", "gpay", "cheque", "bank", "rrn", "reference"]

/-- Keyword list of the effective `_is_customer_sheet` (data_processor.py 601). -/
def customerIndicators : List String :=
  ["customer", "name", "mobile", "phone", "village", "taluka",
   "district", "code", "contact"]

/-- Keyword list of the effective `_is_distributor_sheet` (data_processor.py 616). -/
def distributorIndicators : List String :=
  ["distributor", "mantri", "sabhasad", "contact_in_group",
   "village", "taluka", "district", "leader", "team", "sabh"]

/-- Number of indicators with at least one substring match among the
lower-cased column labels — the `score` computed by each detector. -/
def indicatorScore (indicators cols : List String) : ℕ :=
  (indicators.filter
    (fun ind => cols.any (fun c => strContains ind (strLower c)))).length

def salesScore (cols : List String) : ℕ := indicatorScore salesIndicators cols
def paymentScore (cols : List String) : ℕ := indicatorScore paymentIndicators cols
def customerScore (cols : List String) : ℕ := indicatorScore customerIndicators cols
def distributorScore (cols : List String) : ℕ := indicatorScore distributorIndicators cols

/-- `_is_sales_sheet` (effective definition): score ≥ 2. -/
def isSalesSheet (cols : List String) : Bool := 2 ≤ salesScore cols

/-- `_is_payment_sheet`: score ≥ 2. -/
def isPaymentSheet (cols : List String) : Bool := 2 ≤ paymentScore cols

/-- `_is_customer_sheet` (effective definition): score ≥ 2. -/
def isCustomerSheet (cols : List String) : Bool := 2 ≤ customerScore cols

/-- `_is_distributor_sheet` (effective definition): score ≥ 1. -/
def isDistributorSheet (cols : List String) : Bool := 1 ≤ distributorScore cols

inductive SheetKind where
  | Sales
  | Customer
  | Distributor
  | Payment
  | Unknown
  deriving DecidableEq

/-- The dispatch cascade of the effective `process_excel_file`
(data_processor.py 683-695): payment, then sales, then distributor, then
customer; otherwise the sheet is only reported as unknown. -/
def classifySheet (cols : List String) : SheetKind :=
  if isPaymentSheet cols then .Payment
  else if isSalesSheet cols then .Sales
  else if isDistributorSheet cols then .Distributor
  else if isCustomerSheet cols then .Customer
  else .Unknown

/-- Which processor `process_excel_file` invokes for a sheet with the given
cleaned columns; `none` when the sheet is left unprocessed (the `else`
branch at data_processor.py 696-697 only prints "Unknown sheet type"). -/
def excelDispatch (cols : List String) : Option SheetKind :=
  match classifySheet cols with
  | .Unknown => none
  | k => some k

/-- The dispatch cascade of `process_single_sheet` (data_processor.py
642-657): sales, then customer, then distributor, with customer processing
as the fallback for unclassified sheets.  (No caller in the repository
invokes this method.) -/
def singleSheetDispatch (cols : List String) : SheetKind :=
  if isSalesSheet cols then .Sales
  else if isCustomerSheet cols then .Customer
  else if isDistributorSheet cols then .Distributor
  else .Customer

/-! ## Relational store

The SQLite store of `DatabaseManager` (database.py), restricted to the
tables the ingestion pipeline touches.  Tables are lists in insertion
(rowid) order; `AUTOINCREMENT` ids are carried as explicit `next…Id`
counters.  `ℤ` is used for ids because `add_customer`/`add_distributor`
return the sentinel `-1` on failure. -/

structure Customer where
  id : ℤ
  code : String
  name : String
  mobile : String
  village : String
  taluka : String
  district : String
  deriving DecidableEq

structure Distributor where
  id : ℤ
  name : String
  village : String
  taluka : String
  district : String
  mantriName : String
  mantriMobile : String
  sabhasadCount : ℤ
  contactInGroup : ℤ
  deriving DecidableEq

structure Sale where
  id : ℤ
  invoiceNo : String
  customerId : ℤ
  saleDate : String
  totalAmount : PyFloat
  totalLiters : PyFloat
  paymentStatus : String
  notes : String
  deriving DecidableEq

structure SaleItem where
  saleId : ℤ
  productId : ℤ
  quantity : PyFloat
  rate : PyFloat
  amount : PyFloat
  deriving DecidableEq

structure Payment where
  saleId : ℤ
  date : String
  method : String
  amount : PyFloat
  rrn : String
  reference : String
  deriving DecidableEq

structure DB where
  customers : List Customer
  distributors : List Distributor
  /-- `DataProcessor.product_mapping`: upper-cased product name → id. -/
  products : List (String × ℤ)
  sales : List Sale
  saleItems : List SaleItem
  payments : List Payment
  nextCustomerId : ℤ
  nextDistributorId : ℤ
  nextSaleId : ℤ
  deriving DecidableEq

/-- An empty store, as produced by `init_database` (ignoring the seeded
product rows, which are supplied separately through `products`). -/
def emptyDB (products : List (String × ℤ)) : DB :=
  ⟨[], [], products, [], [], [], 1, 1, 1⟩

/-- The match predicate of `add_customer`'s duplicate check
(database.py 403-407): `mobile = ? OR (name = ? AND village = ?)`.
Note that an empty `mobile` argument matches any stored customer whose
mobile is also empty. -/
def customerMatch (name mobile village : String) (c : Customer) : Bool :=
  c.mobile == mobile || (c.name == name && c.village == village)

/-- `DatabaseManager.add_customer` (database.py 393-439) as it actually
executes.  `codes` is the stream of candidate customer codes; its head is
the provided (or initially self-generated) `customer_code`, and the source
only ever consumes the head: `execute_query` (database.py 354-375) wraps
every query in a handler that catches all exceptions and returns `[]`, so
the `sqlite3.IntegrityError` of a `UNIQUE(customer_code)` collision never
reaches `add_customer`'s retry handler — the loop `break`s after its first
iteration, with a colliding INSERT silently inserting nothing.  The
subsequent `SELECT last_insert_rowid()` runs on a fresh connection (every
`execute_query` call opens its own `sqlite3.connect`) and thus yields `0`,
so every non-duplicate call returns `0` whether or not the row was
inserted; the outer handler's sentinel `-1` is reachable only through a
database error the pure model cannot raise. -/
def addCustomer (db : DB) (codes : List String)
    (name mobile village taluka district : String) : DB × ℤ :=
  match db.customers.find? (customerMatch name mobile village) with
  | some c => (db, c.id)
  | none =>
    let cd := codes.headD ""
    if db.customers.any (fun c => c.code == cd) then (db, 0)
    else
      ({db with
          customers := db.customers ++
            [⟨db.nextCustomerId, cd, name, mobile, village, taluka, district⟩],
          nextCustomerId := db.nextCustomerId + 1},
       0)

/-- Modelled from the spec's words, not from the source: the customer
resolver contract — dedup by exact mobile or exact (name, village) match
returning the existing id; otherwise insert with the first of up to five
candidate codes that is free of a `UNIQUE(customer_code)` collision
(later candidates modelling regeneration with added randomness) and
return the new row id; return the sentinel `-1` on collision exhaustion.
To be compared with the source-derived `addCustomer` above. -/
def specResolveCustomer (db : DB) (codes : List String)
    (name mobile village taluka district : String) : DB × ℤ :=
  match db.customers.find? (customerMatch name mobile village) with
  | some c => (db, c.id)
  | none =>
    match (codes.take 5).find? (fun cd => !(db.customers.any (fun c => c.code == cd))) with
    | some cd =>
      ({db with
          customers := db.customers ++
            [⟨db.nextCustomerId, cd, name, mobile, village, taluka, district⟩],
          nextCustomerId := db.nextCustomerId + 1},
       db.nextCustomerId)
    | none => (db, -1)

/-- `DatabaseManager.add_distributor` (database.py 440-474): find by
`(name, village, taluka)` or insert.  As in `add_customer`, the
`SELECT last_insert_rowid()` after a fresh insert runs on its own
connection and returns `0`, so the new row's id is never returned. -/
def addDistributor (db : DB) (name village taluka district mantriName mantriMobile : String)
    (sabhasadCount contactInGroup : ℤ) : DB × ℤ :=
  match db.distributors.find?
      (fun d => d.name == name && d.village == village && d.taluka == taluka) with
  | some d => (db, d.id)
  | none =>
    ({db with
        distributors := db.distributors ++
          [⟨db.nextDistributorId, name, village, taluka, district,
            mantriName, mantriMobile, sabhasadCount, contactInGroup⟩],
        nextDistributorId := db.nextDistributorId + 1},
     0)

/-- `DatabaseManager.generate_invoice_number` (effective definition,
database.py 542-571).  `invoices` is the `sales.invoice_no` column in
`sale_id` order; the SQL query takes the *last inserted* invoice matching
`LIKE '<prefix><mm><yy>%'`.  Its serial suffix is parsed with `int(...)`;
on a `ValueError` the serial restarts at `1` (the timestamp fallback fires
only when the database query itself raises, which the pure model cannot).
`mm`/`yy` are the two-digit month and year of the current date. -/
def genInvoiceNumber (pfx mm yy : String) (invoices : List String) : String :=
  let pat := pfx ++ mm ++ yy
  let matching := invoices.filter (fun inv => pat.data.isPrefixOf inv.data)
  let serial : ℕ :=
    match matching.getLast? with
    | none => 1
    | some last =>
      match parsePyNat (last.data.drop (pfx.data.length + 4)) with
      | some s => s + 1
      | none => 1
  pfx ++ mm ++ yy ++ String.mk (padNat 3 serial)

/-- One entry of the `items` argument of `add_sale`; `liters` models
`item.get('liters', 0)` and defaults to `0` for the ingestion callers,
whose item dicts carry no `liters` key. -/
structure ItemInput where
  productId : ℤ
  quantity : PyFloat
  rate : PyFloat
  liters : PyFloat := .finite 0

/-- One entry of the optional `payments` argument of `add_sale`. -/
structure PaymentInput where
  date : String
  method : String
  amount : PyFloat
  rrn : String := ""
  reference : String := ""

/-- `DatabaseManager._update_payment_status` (database.py 633-661):
recompute a sale's `payment_status` from the sum of its payments against
its `total_amount`. -/
def updatePaymentStatus (db : DB) (saleId : ℤ) : DB :=
  let totalPaid := pySum ((db.payments.filter (fun p => p.saleId == saleId)).map (·.amount))
  match db.sales.find? (fun s => s.id == saleId) with
  | none => db
  | some s =>
    let status :=
      if pyLe s.totalAmount totalPaid then "Paid"
      else if pyLt (.finite 0) totalPaid then "Partial"
      else "Pending"
    {db with
      sales := db.sales.map (fun t => if t.id == saleId then {t with paymentStatus := status} else t)}

/-- `DatabaseManager.add_sale` (database.py 575-631): insert the sale with
`total_amount = Σ quantity·rate` and `total_liters = Σ liters`, insert the
items (each with `amount = quantity·rate`) and any supplied payments in one
transaction, then recompute the payment status.  A duplicate `invoice_no`
violates `UNIQUE(sales.invoice_no)`: the transaction is rolled back and the
exception re-raised, modelled by `none`. -/
def addSale (db : DB) (invoiceNo : String) (customerId : ℤ) (saleDate : String)
    (items : List ItemInput) (payments : List PaymentInput) (notes : String) :
    Option (DB × ℤ) :=
  if db.sales.any (fun s => s.invoiceNo == invoiceNo) then none
  else
    let saleId := db.nextSaleId
    let totalAmount := pySum (items.map (fun it => pyMul it.quantity it.rate))
    let totalLiters := pySum (items.map (·.liters))
    let db1 : DB :=
      {db with
        sales := db.sales ++
          [⟨saleId, invoiceNo, customerId, saleDate, totalAmount, totalLiters, "Pending", notes⟩],
        saleItems := db.saleItems ++
          items.map (fun it => ⟨saleId, it.productId, it.quantity, it.rate,
            pyMul it.quantity it.rate⟩),
        payments := db.payments ++
          payments.map (fun p => ⟨saleId, p.date, p.method, p.amount, p.rrn, p.reference⟩),
        nextSaleId := saleId + 1}
    some (updatePaymentStatus db1 saleId, saleId)

/-! ## Row extraction

A sheet row is an ordered list of `(column label, cell)` pairs; a cell is
`none` when `pd.isna` holds for it, and otherwise carries the cell's
`str(value)` rendering (every extractor in the source immediately applies
`str(...)` to non-null cells). -/

/-- One sheet row: cleaned (upper-cased) column labels paired with cells. -/
abbrev Row := List (String × Option String)

/-- `DataProcessor._extract_sales_value` (data_processor.py 518-533)
without its default: first non-null cell whose lower-cased column label
contains `field`, else the non-null positional cell at `idx`; `none` when
both fail (the caller's default applies). -/
def extractValue (row : Row) (field : String) (idx : ℕ) : Option String :=
  match row.find? (fun p => strContains field (strLower p.1) && p.2.isSome) with
  | some p => p.2.map stripStr
  | none =>
    match row.get? idx with
    | some (_, some v) => some (stripStr v)
    | _ => none

/-- `DataProcessor._safe_get` (data_processor.py 285-304): exact column
label match first (returning `""` for a null cell), else positional
fallback, else `""`. -/
def safeGet (row : Row) (colName : String) (idx : ℕ) : String :=
  match row.find? (fun p => p.1 == colName) with
  | some (_, some v) => stripStr v
  | some (_, none) => ""
  | none =>
    match row.get? idx with
    | some (_, some v) => stripStr v
    | _ => ""

/-- Truncation of a rational toward zero, as Python `int(float)`. -/
def ratTrunc (q : ℚ) : ℤ := q.num / q.den

/-- `DataProcessor._safe_get_int` (data_processor.py 306-314):
`int(float(str_value))` for a nonblank string, `0` otherwise or on
`ValueError`/`TypeError`.  `int(...)` of a non-finite float raises
`OverflowError`/`ValueError` *outside* the caught classes, escaping into
the per-row handler: modelled by `none`. -/
def safeGetInt (row : Row) (colName : String) (idx : ℕ) : Option ℤ :=
  let s := safeGet row colName idx
  if (pyStrip s.data).isEmpty then some 0
  else
    match pyFloatOfString s with
    | some (.finite q) => some (ratTrunc q)
    | some _ => none
    | none => some 0

/-- The header indicators of `DataProcessor._is_header_row`
(data_processor.py 316-331). -/
def headerIndicators : List String :=
  ["DATE", "VILLAGE", "TALUKA", "DISTRICT", "MANTRI",
   "SABHASAD", "CONTACT", "TOTAL", "SR", "NO", "NAME"]

/-- `DataProcessor._is_header_row`: an empty row, or a first cell whose
upper-cased string rendering contains any header indicator. -/
def isHeaderRow (row : Row) : Bool :=
  match row with
  | [] => true
  | (_, c) :: _ =>
    let firstValueUpper := strUpper (c.getD "")
    headerIndicators.any (fun ind => strContains ind firstValueUpper)

/-- `pd.isna(row.iloc[0])` — the second half of every processor's skip
condition. -/
def firstCellNa (row : Row) : Bool :=
  match row with
  | [] => true
  | (_, c) :: _ => c.isNone

/-- Outcome of processing one row. -/
inductive RowOutcome where
  | skipped
  | rejected (reason : String)
  | ignored
  | processed (id : ℤ)
  deriving DecidableEq

/-- `DataProcessor._get_or_create_customer` (data_processor.py 342-367),
as called from the sales sheet with empty mobile/location: query by
`(name, mobile='')`; on a miss call `add_customer` with a generated code
(head of `codes`) and re-query by that code — the re-query, not
`add_customer`'s return value (which is `0` on every fresh insert), is
what produces the id, and it returns whichever customer holds that code
(`None` when none does, e.g. when `add_customer` dedup-matched some other
customer under a different code). -/
def getOrCreateCustomer (db : DB) (name : String) (codes : List String) :
    DB × Option ℤ :=
  match db.customers.find? (fun c => c.name == name && c.mobile == "") with
  | some c => (db, some c.id)
  | none =>
    let r := addCustomer db codes name "" "" "" ""
    (r.1, (r.1.customers.find? (fun c => c.code == codes.headD "")).map (·.id))

/-- `DataProcessor._get_product_id` (data_processor.py 369-372):
`product_mapping.get(product_name.upper().strip())`. -/
def getProductId (db : DB) (productName : String) : Option ℤ :=
  (db.products.find? (fun p => p.1 == stripStr (strUpper productName))).map (·.2)

/-- The effective `DataProcessor.process_sales_sheet` (data_processor.py
429-517) on a single row.  `defInv` is the timestamped
`INV_<now>_<index>` default invoice; `mm`/`yy` feed invoice generation;
`today` is `datetime.now().date()`; `codes` is the stream of generated
customer codes. -/
def processSalesRow (db : DB) (defInv mm yy today : String) (codes : List String)
    (row : Row) : DB × RowOutcome :=
  if isHeaderRow row || firstCellNa row then (db, .skipped)
  else
    let invoiceNo := (extractValue row "invoice" 0).getD defInv
    let customerName := (extractValue row "customer" 1).getD "Unknown Customer"
    let productName := (extractValue row "product" 2).getD "Unknown Product"
    let quantity := dpSafeFloat (match extractValue row "quantity" 3 with
      | some s => .str s | none => .num (.finite 0))
    let amount := dpSafeFloat (match extractValue row "amount" 4 with
      | some s => .str s | none => .num (.finite 0))
    if customerName == "" || customerName == "Unknown Customer" then
      (db, .rejected "invalid customer name")
    else if pyLe quantity (.finite 0) then (db, .rejected "invalid quantity")
    else if pyLe amount (.finite 0) then (db, .rejected "invalid amount")
    else
      match getOrCreateCustomer db customerName codes with
      | (db1, none) => (db1, .rejected "could not get/create customer")
      | (db1, some customerId) =>
        -- Python `if not customer_id:` — only `0` (and `None`) are falsy
        if customerId == 0 then (db1, .rejected "could not get/create customer")
        else
          match getProductId db1 productName with
          | none => (db1, .rejected "product not found")
          | some productId =>
            let rate := rateCalc amount quantity
            let inv2 :=
              if invoiceNo == "" || "INV_".data.isPrefixOf invoiceNo.data then
                genInvoiceNumber "INVCL" mm yy (db1.sales.map (·.invoiceNo))
              else invoiceNo
            match addSale db1 inv2 customerId today
                [{productId := productId, quantity := quantity, rate := rate}] [] "" with
            | none => (db1, .rejected "error creating sale")
            | some (db2, saleId) =>
              if 0 < saleId then (db2, .processed saleId)
              else (db2, .rejected "failed to create sale")

/-- `DataProcessor.process_payment_sheet` (data_processor.py 552-598) on a
single row: extract invoice/amount/date/method; only a row with a nonempty
invoice, positive amount and a *pre-existing* matching sale inserts a
payment — otherwise nothing is persisted and nothing is logged. -/
def processPaymentRow (db : DB) (today : String) (row : Row) : DB × RowOutcome :=
  if isHeaderRow row || firstCellNa row then (db, .skipped)
  else
    let invoiceNo := (extractValue row "invoice" 0).getD ""
    let amount := dpSafeFloat (match extractValue row "amount" 1 with
      | some s => .str s | none => .num (.finite 0))
    let payDate := (extractValue row "date" 2).getD today
    let method := (extractValue row "method" 3).getD "Cash"
    if invoiceNo != "" && pyLt (.finite 0) amount then
      match db.sales.find? (fun s => s.invoiceNo == invoiceNo) with
      | some s =>
        ({db with payments := db.payments ++ [⟨s.id, payDate, method, amount, "", ""⟩]},
         .processed s.id)
      | none => (db, .ignored)
    else (db, .ignored)

/-- `DataProcessor._extract_distributor_name` (data_processor.py 271-283). -/
def extractDistributorName (row : Row) : String :=
  let village := safeGet row "Village" 1
  let taluka := safeGet row "Taluka" 2
  if village != "" && taluka != "" then village ++ " - " ++ taluka
  else if village != "" then village
  else if taluka != "" then taluka
  else "Unknown Distributor"

/-- `DataProcessor.process_distributor_sheet` (data_processor.py 210-269)
on a single row.  The persistence step is
`INSERT OR REPLACE INTO distributors (name, village, …) VALUES (…)`
(lines 251-255): the `distributors` table (database.py 50-65) has no
`UNIQUE` column and the auto-increment primary key is not supplied, so the
`OR REPLACE` clause can never fire and the statement always inserts a
fresh row. -/
def processDistributorRow (db : DB) (row : Row) : DB × RowOutcome :=
  if isHeaderRow row || firstCellNa row then (db, .skipped)
  else
    let name0 := extractDistributorName row
    let village := safeGet row "Village" 1
    let taluka := safeGet row "Taluka" 2
    let district := safeGet row "District" 3
    let mantriName := safeGet row "Mantri_Name" 4
    let mantriMobile := safeGet row "Mantri_Mobile" 5
    match safeGetInt row "Sabhasad" 6, safeGetInt row "Contact_In_Group" 7 with
    | some sabhasadCount, some contactInGroup =>
      if village == "" || taluka == "" then (db, .rejected "missing village or taluka")
      else
        let name := if name0 == "" then village ++ " - " ++ taluka else name0
        ({db with
            distributors := db.distributors ++
              [⟨db.nextDistributorId, name, village, taluka, district,
                mantriName, mantriMobile, sabhasadCount, contactInGroup⟩],
            nextDistributorId := db.nextDistributorId + 1},
         .processed db.nextDistributorId)
    | _, _ => (db, .rejected "error in row")

/-- `DataProcessor.process_customer_sheet` (data_processor.py 151-208) on a
single row: positional extraction, the `"Name (Village)"` split when the
village column is blank, skip on a blank/`Unknown` name, then
`add_customer` (whose candidate codes are the provided `customer_code`
from column 0, when present, followed by `genCodes`). -/
def processCustomerRow (db : DB) (genCodes : List String) (row : Row) : DB × RowOutcome :=
  if isHeaderRow row || firstCellNa row then (db, .skipped)
  else
    let customerCode : Option String :=
      match row.get? 0 with | some (_, some v) => some v | _ => none
    let name0 := match row.get? 1 with | some (_, some v) => v | _ => "Unknown"
    let mobile := match row.get? 2 with | some (_, some v) => v | _ => ""
    let village0 := match row.get? 3 with | some (_, some v) => v | _ => ""
    let taluka := match row.get? 4 with | some (_, some v) => v | _ => ""
    let district := match row.get? 5 with | some (_, some v) => v | _ => ""
    let nameVillage : String × String :=
      if village0 == "" && strContains "(" name0 then
        match splitOnCh '(' name0.data with
        | p0 :: p1 :: _ =>
          (String.mk (pyStrip p0), String.mk (pyStrip (p1.filter (· ≠ ')'))))
        | _ => (name0, village0)
      else (name0, village0)
    let name := nameVillage.1
    let village := nameVillage.2
    if name == "" || name == "Unknown" then (db, .ignored)
    else
      let codes := match customerCode with | some c => c :: genCodes | none => genCodes
      let r := addCustomer db codes name mobile village taluka district
      if r.2 != -1 && r.2 != 0 then (r.1, .processed r.2)
      else (r.1, .ignored)

/-- Fold of `process_distributor_sheet` over a sheet's rows (each row's
exceptions are caught, so processing always continues with the next row). -/
def processDistributorSheet (db : DB) (rows : List Row) : DB :=
  rows.foldl (fun d r => (processDistributorRow d r).1) db

/-- Fold of the effective `process_sales_sheet` over a sheet's rows. -/
def processSalesSheet (db : DB) (defInv mm yy today : String) (codes : List String)
    (rows : List Row) : DB :=
  rows.foldl (fun d r => (processSalesRow d defInv mm yy today codes r).1) db

/-! ## Date parsing (`SalesDataProcessor.parse_date`)

`parse_date` (sales_data_processor.py 115-142) takes a raw cell and
returns a canonical `YYYY-MM-DD` string, the sentinel `NOT_AVAILABLE` for
blank input, or the sentinel `INVALID_DATE`.  Numeric cells are spreadsheet
serial dates: `datetime(1899, 12, 30) + timedelta(days=value)`.  The
calendar arithmetic of the Python datetime library is modelled with the
standard civil-from-days algorithm on the proleptic Gregorian calendar. -/

/-- Gregorian leap year. -/
def isLeap (y : ℕ) : Bool := decide (y % 4 = 0 ∧ (y % 100 ≠ 0 ∨ y % 400 = 0))

/-- Days in a month of the Gregorian calendar. -/
def daysInMonth (y m : ℕ) : ℕ :=
  if m = 2 then (if isLeap y then 29 else 28)
  else if m = 4 ∨ m = 6 ∨ m = 9 ∨ m = 11 then 30
  else 31

/-! Civil date from a count of days since 1970-01-01 (proleptic Gregorian,
floor division throughout), written as one helper per intermediate
quantity of the standard era/day-of-era/year-of-era decomposition so the
arithmetic stays accessible to `omega`. -/

/-- Day within the 400-year era, in `[0, 146096]` (`/` and `%` on `ℤ` are
floor division and its nonnegative remainder for positive divisors). -/
def civilDoe (z : ℤ) : ℤ := (z + 719468) % 146097

/-- Year within the era, in `[0, 399]`. -/
def civilYoe (z : ℤ) : ℤ :=
  (civilDoe z - civilDoe z / 1460 + civilDoe z / 36524 - civilDoe z / 146096) / 365

/-- Day of the March-based year, in `[0, 365]`. -/
def civilDoy (z : ℤ) : ℤ :=
  civilDoe z - (365 * civilYoe z + civilYoe z / 4 - civilYoe z / 100)

/-- March-based month index, in `[0, 11]`. -/
def civilMp (z : ℤ) : ℤ := (5 * civilDoy z + 2) / 153

/-- Day of month, in `[1, 31]`. -/
def civilDay (z : ℤ) : ℤ := civilDoy z - (153 * civilMp z + 2) / 5 + 1

/-- Month, in `[1, 12]`. -/
def civilMonth (z : ℤ) : ℤ := civilMp z + (if civilMp z < 10 then 3 else -9)

/-- Year (January-based). -/
def civilYear (z : ℤ) : ℤ :=
  civilYoe z + (z + 719468) / 146097 * 400 + (if civilMonth z ≤ 2 then 1 else 0)

/-- Civil date from a count of days since 1970-01-01. -/
def civilFromDays (z : ℤ) : ℤ × ℤ × ℤ := (civilYear z, civilMonth z, civilDay z)

/-- The date `1899-12-30 + n days` of the numeric branch of `parse_date`,
as a `(year, month, day)` triple; `none` when the result leaves the
`datetime` year range `1..9999` (Python raises `OverflowError`, caught by
the bare `except`).  1899-12-30 is 25569 days before 1970-01-01. -/
def serialToYmd (n : ℤ) : Option (ℕ × ℕ × ℕ) :=
  let ymd := civilFromDays (n - 25569)
  if 1 ≤ ymd.1 ∧ ymd.1 ≤ 9999 then some (ymd.1.toNat, ymd.2.1.toNat, ymd.2.2.toNat)
  else none

/-- The characters of `strftime('%Y-%m-%d')`: the year unpadded (4 digits
for every year ≥ 1000), month and day zero-padded to width 2. -/
def ymdChars (y m d : ℕ) : List Char :=
  natDigs y ++ '-' :: (padNat 2 m ++ '-' :: padNat 2 d)

/-- `strftime('%Y-%m-%d')`. -/
def fmtYmd (y m d : ℕ) : String := String.mk (ymdChars y m d)

/-- A `strptime` numeric field of exactly `k` digits (CPython's `%Y`). -/
def parseNumExact (k : ℕ) (l : List Char) : Option ℕ :=
  if l.length == k && allDigits l then some (chsVal l) else none

/-- A `strptime` numeric field of one to `k` digits (`%m`, `%d`, `%H`,
`%M`, `%S`; their value ranges are checked separately). -/
def parseNumUpTo (k : ℕ) (l : List Char) : Option ℕ :=
  if !l.isEmpty && (l.length ≤ k && allDigits l) then some (chsVal l) else none

/-- `datetime` validity of a parsed `(y, m, d)` triple: `strptime`
constructs a `datetime`, which enforces the real calendar. -/
def validYmd (y m d : ℕ) : Bool :=
  1 ≤ y && y ≤ 9999 && 1 ≤ m && m ≤ 12 && 1 ≤ d && d ≤ daysInMonth y m

/-- A `%H:%M:%S` time field. -/
def validTimePart (l : List Char) : Bool :=
  match splitOnCh ':' l with
  | [h, mi, s] =>
    (match parseNumUpTo 2 h, parseNumUpTo 2 mi, parseNumUpTo 2 s with
     | some hv, some miv, some sv => hv ≤ 23 && miv ≤ 59 && sv ≤ 61
     | _, _, _ => false)
  | _ => false

/-- `%Y-%m-%d` on a date-only fragment. -/
def parseDashYmd (l : List Char) : Option (ℕ × ℕ × ℕ) :=
  match splitOnCh '-' l with
  | [a, b, c] =>
    match parseNumExact 4 a, parseNumUpTo 2 b, parseNumUpTo 2 c with
    | some y, some m, some d => if validYmd y m d then some (y, m, d) else none
    | _, _, _ => none
  | _ => none

/-- `%d-%m-%Y` on a date-only fragment. -/
def parseDashDmy (l : List Char) : Option (ℕ × ℕ × ℕ) :=
  match splitOnCh '-' l with
  | [a, b, c] =>
    match parseNumUpTo 2 a, parseNumUpTo 2 b, parseNumExact 4 c with
    | some d, some m, some y => if validYmd y m d then some (y, m, d) else none
    | _, _, _ => none
  | _ => none

/-- `%d/%m/%Y` on a date-only fragment. -/
def parseSlashDmy (l : List Char) : Option (ℕ × ℕ × ℕ) :=
  match splitOnCh '/' l with
  | [a, b, c] =>
    match parseNumUpTo 2 a, parseNumUpTo 2 b, parseNumExact 4 c with
    | some d, some m, some y => if validYmd y m d then some (y, m, d) else none
    | _, _, _ => none
  | _ => none

/-- Split at space runs: CPython's `_strptime` compiles whitespace in the
format to the regex `\s+`. -/
def spaceParts (l : List Char) : List (List Char) :=
  (splitOnCh ' ' l).filter (fun p => !p.isEmpty)

/-- `%Y-%m-%d %H:%M:%S`. -/
def parseFmtYmdHms (l : List Char) : Option (ℕ × ℕ × ℕ) :=
  match spaceParts l with
  | [dp, tp] => if validTimePart tp then parseDashYmd dp else none
  | _ => none

/-- `%d/%m/%Y %H:%M:%S`. -/
def parseFmtDmySlashHms (l : List Char) : Option (ℕ × ℕ × ℕ) :=
  match spaceParts l with
  | [dp, tp] => if validTimePart tp then parseSlashDmy dp else none
  | _ => none

/-- The format list of `parse_date`, tried in source order with the first
success winning: `['%Y-%m-%d %H:%M:%S', '%d/%m/%Y', '%Y-%m-%d',
'%d-%m-%Y', '%d/%m/%Y %H:%M:%S']`. -/
def tryFormats (l : List Char) : Option (ℕ × ℕ × ℕ) :=
  (parseFmtYmdHms l).orElse fun _ =>
    (parseSlashDmy l).orElse fun _ =>
      (parseDashYmd l).orElse fun _ =>
        (parseDashDmy l).orElse fun _ =>
          parseFmtDmySlashHms l

/-- A raw cell as seen by `parse_date`: missing (`pd.isna`), a numeric
serial (restricted to integer serials, the spreadsheet case), or a string. -/
inductive DateCell where
  | na
  | num (n : ℤ)
  | str (s : String)

/-- `SalesDataProcessor.parse_date` (sales_data_processor.py 115-142). -/
def parse_date : DateCell → String
  | .na => "NOT_AVAILABLE"
  | .num n =>
    (match serialToYmd n with
     | some (y, m, d) => fmtYmd y m d
     | none => "INVALID_DATE")
  | .str s =>
    if s == "" || s == "NOT_AVAILABLE" || s == "_" then "NOT_AVAILABLE"
    else
      match tryFormats (pyStrip s.data) with
      | some (y, m, d) => fmtYmd y m d
      | none => "INVALID_DATE"

/-! ## Lemmas: digit strings and the date formats -/

theorem mem_natDigsF_digitCh (fuel : ℕ) :
    ∀ n, n < fuel → ∀ c ∈ natDigsF fuel n, ∃ k, k < 10 ∧ c = digitCh k := by
  induction fuel with
  | zero => intro n h; omega
  | succ f ih =>
    intro n h c hc
    simp only [natDigsF] at hc
    split at hc
    · next h10 =>
      simp only [List.mem_singleton] at hc
      exact ⟨n, h10, hc⟩
    · next h10 =>
      push_neg at h10
      have hdiv : n / 10 < f := by
        have := Nat.div_lt_self (show 0 < n by omega) (show 1 < 10 by norm_num)
        omega
      rcases List.mem_append.mp hc with h1 | h1
      · exact ih _ hdiv c h1
      · simp only [List.mem_singleton] at h1
        exact ⟨n % 10, Nat.mod_lt n (by norm_num), h1⟩

theorem mem_natDigs_digitCh (n : ℕ) (c : Char) (hc : c ∈ natDigs n) :
    ∃ k, k < 10 ∧ c = digitCh k :=
  mem_natDigsF_digitCh (n + 1) n (Nat.lt_succ_self n) c hc

theorem mem_padNat_digitCh (w n : ℕ) (c : Char) (hc : c ∈ padNat w n) :
    ∃ k, k < 10 ∧ c = digitCh k := by
  rcases List.mem_append.mp hc with h1 | h1
  · exact ⟨0, by norm_num, List.eq_of_mem_replicate h1⟩
  · exact mem_natDigs_digitCh n c h1

/-- Characters of a formatted date: every one is a digit glyph or `'-'`. -/
theorem mem_ymdChars (y m d : ℕ) (c : Char) (hc : c ∈ ymdChars y m d) :
    (∃ k, k < 10 ∧ c = digitCh k) ∨ c = '-' := by
  unfold ymdChars at hc
  rcases List.mem_append.mp hc with h1 | h1
  · exact .inl (mem_natDigs_digitCh y c h1)
  · rcases List.mem_cons.mp h1 with h2 | h2
    · exact .inr h2
    · rcases List.mem_append.mp h2 with h3 | h3
      · exact .inl (mem_padNat_digitCh 2 m c h3)
      · rcases List.mem_cons.mp h3 with h4 | h4
        · exact .inr h4
        · exact .inl (mem_padNat_digitCh 2 d c h4)

theorem ymdChars_not_ws (y m d : ℕ) : ∀ c ∈ ymdChars y m d, isWs c = false := by
  intro c hc
  rcases mem_ymdChars y m d c hc with ⟨k, hk, rfl⟩ | rfl
  · interval_cases k <;> rfl
  · rfl

theorem ymdChars_no_space (y m d : ℕ) : ' ' ∉ ymdChars y m d := by
  intro hc
  rcases mem_ymdChars y m d ' ' hc with ⟨k, hk, h⟩ | h
  · interval_cases k <;> exact absurd h (by decide)
  · exact absurd h (by decide)

theorem ymdChars_no_slash (y m d : ℕ) : '/' ∉ ymdChars y m d := by
  intro hc
  rcases mem_ymdChars y m d '/' hc with ⟨k, hk, h⟩ | h
  · interval_cases k <;> exact absurd h (by decide)
  · exact absurd h (by decide)

theorem natDigs_no_dash (n : ℕ) : '-' ∉ natDigs n := by
  intro hc
  rcases mem_natDigs_digitCh n '-' hc with ⟨k, hk, h⟩
  interval_cases k <;> exact absurd h (by decide)

theorem padNat_no_dash (w n : ℕ) : '-' ∉ padNat w n := by
  intro hc
  rcases mem_padNat_digitCh w n '-' hc with ⟨k, hk, h⟩
  interval_cases k <;> exact absurd h (by decide)

theorem ymdChars_ne_nil (y m d : ℕ) : ymdChars y m d ≠ [] := by
  unfold ymdChars
  intro h
  rcases List.append_eq_nil.mp h with ⟨h1, _⟩
  exact natDigs_ne_nil y h1

/-- Splitting a formatted date at `'-'` recovers its three fields. -/
theorem splitOnCh_ymdChars (y m d : ℕ) :
    splitOnCh '-' (ymdChars y m d) = [natDigs y, padNat 2 m, padNat 2 d] := by
  unfold ymdChars
  rw [splitOnCh_append '-' _ _ (natDigs_no_dash y),
      splitOnCh_append '-' _ _ (padNat_no_dash 2 m),
      splitOnCh_of_not_mem '-' _ (padNat_no_dash 2 d)]

theorem natDigs_length_ge (fuel : ℕ) :
    ∀ n k, n < fuel → 10 ^ k ≤ n → k + 1 ≤ (natDigsF fuel n).length := by
  induction fuel with
  | zero => intro n k h; omega
  | succ f ih =>
    intro n k h hk
    simp only [natDigsF]
    split
    · next h10 =>
      have : k = 0 := by
        by_contra hc
        have : 10 ^ 1 ≤ 10 ^ k := Nat.pow_le_pow_right (by norm_num) (by omega)
        simp at this
        omega
      simp [this]
    · next h10 =>
      push_neg at h10
      have hdiv : n / 10 < f := by
        have := Nat.div_lt_self (show 0 < n by omega) (show 1 < 10 by norm_num)
        omega
      cases k with
      | zero =>
        have := natDigsF_ne_nil f (n / 10) hdiv
        simp only [List.length_append, List.length_cons, List.length_nil]
        have : 0 < (natDigsF f (n / 10)).length := List.length_pos.mpr this
        omega
      | succ k' =>
        have hk' : 10 ^ k' ≤ n / 10 := by
          rw [Nat.le_div_iff_mul_le (by norm_num)]
          calc 10 ^ k' * 10 = 10 ^ (k' + 1) := by rw [pow_succ]
          _ ≤ n := hk
        have := ih (n / 10) k' hdiv hk'
        simp only [List.length_append, List.length_cons, List.length_nil]
        omega

/-- A year in `[1000, 9999]` prints as exactly four digits. -/
theorem natDigs_length_year (y : ℕ) (h1 : 1000 ≤ y) (h2 : y ≤ 9999) :
    (natDigs y).length = 4 := by
  have hle : (natDigs y).length ≤ 4 :=
    natDigs_length_le y 4 (by omega) (by norm_num)
  have hge : 4 ≤ (natDigs y).length :=
    natDigs_length_ge (y + 1) y 3 (Nat.lt_succ_self y) (by norm_num; omega)
  omega

theorem padNat_two_length (m : ℕ) (h : m < 100) : (padNat 2 m).length = 2 := by
  have hle : (natDigs m).length ≤ 2 := natDigs_length_le m 2 (by omega) (by norm_num)
  have hpos : 0 < (natDigs m).length := List.length_pos.mpr (natDigs_ne_nil m)
  simp only [padNat, List.length_append, List.length_replicate]
  omega

theorem parseNumExact_natDigs_year (y : ℕ) (h1 : 1000 ≤ y) (h2 : y ≤ 9999) :
    parseNumExact 4 (natDigs y) = some y := by
  simp [parseNumExact, natDigs_length_year y h1 h2, allDigits_natDigs, chsVal_natDigs]

theorem parseNumUpTo_padNat_two (m : ℕ) (h : m < 100) :
    parseNumUpTo 2 (padNat 2 m) = some m := by
  simp [parseNumUpTo, List.isEmpty_iff, padNat_ne_nil, padNat_two_length m h,
    allDigits_padNat, chsVal_padNat]

/-- The third format (`%Y-%m-%d`) parses a formatted valid date back to the
same triple. -/
theorem parseDashYmd_ymdChars (y m d : ℕ) (h1 : 1000 ≤ y)
    (hv : validYmd y m d = true) :
    parseDashYmd (ymdChars y m d) = some (y, m, d) := by
  have hy2 : y ≤ 9999 := by
    simp only [validYmd, Bool.and_eq_true, decide_eq_true_eq] at hv
    omega
  have hm : m < 100 := by
    simp only [validYmd, Bool.and_eq_true, decide_eq_true_eq] at hv
    omega
  have hd : d < 100 := by
    simp only [validYmd, Bool.and_eq_true, decide_eq_true_eq] at hv
    have hdm : daysInMonth y m ≤ 31 := by
      unfold daysInMonth
      split_ifs <;> omega
    omega
  unfold parseDashYmd
  rw [splitOnCh_ymdChars]
  dsimp only
  rw [parseNumExact_natDigs_year y h1 hy2,
    parseNumUpTo_padNat_two m hm, parseNumUpTo_padNat_two d hd]
  simp [hv]

/-- The first two formats fail on a date-only `YYYY-MM-DD` string. -/
theorem parseFmtYmdHms_ymdChars (y m d : ℕ) :
    parseFmtYmdHms (ymdChars y m d) = none := by
  unfold parseFmtYmdHms spaceParts
  rw [splitOnCh_of_not_mem ' ' _ (ymdChars_no_space y m d)]
  simp [List.isEmpty_iff, ymdChars_ne_nil y m d]

theorem parseSlashDmy_ymdChars (y m d : ℕ) :
    parseSlashDmy (ymdChars y m d) = none := by
  unfold parseSlashDmy
  rw [splitOnCh_of_not_mem '/' _ (ymdChars_no_slash y m d)]

theorem tryFormats_ymdChars (y m d : ℕ) (h1 : 1000 ≤ y)
    (hv : validYmd y m d = true) :
    tryFormats (ymdChars y m d) = some (y, m, d) := by
  unfold tryFormats
  rw [parseFmtYmdHms_ymdChars, parseSlashDmy_ymdChars,
    parseDashYmd_ymdChars y m d h1 hv]
  rfl

theorem fmtYmd_ne_sentinels (y m d : ℕ) :
    fmtYmd y m d ≠ "" ∧ fmtYmd y m d ≠ "NOT_AVAILABLE" ∧ fmtYmd y m d ≠ "_" := by
  refine ⟨?_, ?_, ?_⟩ <;> unfold fmtYmd <;> intro h
  · have : ymdChars y m d = [] := by
      have := congrArg String.data h
      simpa using this
    exact ymdChars_ne_nil y m d this
  · have hdata : ymdChars y m d = "NOT_AVAILABLE".data := by
      have := congrArg String.data h
      simpa using this
    have : 'O' ∈ ymdChars y m d := by rw [hdata]; decide
    rcases mem_ymdChars y m d 'O' this with ⟨k, hk, hc⟩ | hc
    · interval_cases k <;> exact absurd hc (by decide)
    · exact absurd hc (by decide)
  · have hdata : ymdChars y m d = "_".data := by
      have := congrArg String.data h
      simpa using this
    have : '_' ∈ ymdChars y m d := by rw [hdata]; decide
    rcases mem_ymdChars y m d '_' this with ⟨k, hk, hc⟩ | hc
    · interval_cases k <;> exact absurd hc (by decide)
    · exact absurd hc (by decide)

/-- Re-parsing a formatted valid date yields the same canonical string. -/
theorem parse_date_fmtYmd (y m d : ℕ) (h1 : 1000 ≤ y)
    (hv : validYmd y m d = true) :
    parse_date (.str (fmtYmd y m d)) = fmtYmd y m d := by
  obtain ⟨hne1, hne2, hne3⟩ := fmtYmd_ne_sentinels y m d
  unfold parse_date
  dsimp only
  rw [if_neg (by simp [hne1, hne2, hne3])]
  have hstrip : pyStrip (fmtYmd y m d).data = ymdChars y m d := by
    show pyStrip (ymdChars y m d) = ymdChars y m d
    exact pyStrip_eq_self _ (ymdChars_not_ws y m d)
  rw [hstrip, tryFormats_ymdChars y m d h1 hv]

/-! ## Claim C7: the date parser -/

/-- **C7.**  For every raw cell value, `parse_date` returns the
`NOT_AVAILABLE` sentinel on blank/missing input; converts a numeric value
as a spreadsheet serial day offset from epoch 1899-12-30 (serial 0 is
1899-12-30, serial 45658 is 2025-01-01, and an out-of-range serial gives
`INVALID_DATE` instead of raising); otherwise tries the fixed ordered
format list with the first match winning; and returns the distinct
sentinel `INVALID_DATE` when all formats fail — it is a total function, so
it never raises.  Moreover a spreadsheet serial date and its equivalent
ISO date string normalize to the same canonical `YYYY-MM-DD` string (for
serials whose civil date is a valid calendar date with a four-digit year,
which is every serial in the spreadsheet range). -/
theorem parse_date_spec :
    parse_date .na = "NOT_AVAILABLE" ∧
    parse_date (.str "") = "NOT_AVAILABLE" ∧
    parse_date (.str "NOT_AVAILABLE") = "NOT_AVAILABLE" ∧
    parse_date (.str "_") = "NOT_AVAILABLE" ∧
    "NOT_AVAILABLE" ≠ "INVALID_DATE" ∧
    parse_date (.num 0) = "1899-12-30" ∧
    parse_date (.num 45658) = "2025-01-01" ∧
    (∀ n : ℤ, serialToYmd n = none → parse_date (.num n) = "INVALID_DATE") ∧
    (∀ s : String, ¬(s = "" ∨ s = "NOT_AVAILABLE" ∨ s = "_") →
      tryFormats (pyStrip s.data) = none → parse_date (.str s) = "INVALID_DATE") ∧
    (∀ l r, parseFmtYmdHms l = some r → tryFormats l = some r) ∧
    (∀ l r, parseFmtYmdHms l = none → parseSlashDmy l = some r →
      tryFormats l = some r) ∧
    (∀ l r, parseFmtYmdHms l = none → parseSlashDmy l = none →
      parseDashYmd l = some r → tryFormats l = some r) ∧
    (∀ (n : ℤ) (y m d : ℕ), serialToYmd n = some (y, m, d) → 1000 ≤ y →
      validYmd y m d = true →
      parse_date (.str (parse_date (.num n))) = parse_date (.num n)) := by
  refine ⟨rfl, by decide, by decide, by decide, by decide, by decide, by decide,
    ?_, ?_, ?_, ?_, ?_, ?_⟩
  · intro n h
    unfold parse_date
    dsimp only
    rw [h]
  · intro s hs hfmt
    unfold parse_date
    dsimp only
    rw [if_neg (by simp; tauto), hfmt]
  · intro l r h
    unfold tryFormats
    rw [h]
    rfl
  · intro l r h1 h2
    unfold tryFormats
    rw [h1, h2]
    rfl
  · intro l r h1 h2 h3
    unfold tryFormats
    rw [h1, h2, h3]
    rfl
  · intro n y m d hser hy hv
    have hnum : parse_date (.num n) = fmtYmd y m d := by
      unfold parse_date
      dsimp only
      rw [hser]
    rw [hnum]
    exact parse_date_fmtYmd y m d hy hv

/-- Witness for `parse_date_spec`: the serial 45658 (2025-01-01)
round-trips through its ISO string. -/
theorem parse_date_spec_witness :
    parse_date (.str (parse_date (.num 45658))) = parse_date (.num 45658) :=
  parse_date_spec.2.2.2.2.2.2.2.2.2.2.2.2 45658 2025 1 1 (by decide) (by norm_num)
    (by decide)

/-! ## Claim C2: sheet classification -/

/-- **C2 (counterexample).**  The claim's first two example classifications
are wrong on the code: `["Invoice","Customer","Product","Qty","Amount"]`
scores 2 on the payment keywords (`invoice`, `amount`), which are checked
first, so the sheet classifies as Payment, not Sales; and
`["Name","Mobile","Village","Taluka"]` scores 2 on the distributor
keywords (`village`, `taluka`), which are checked before the customer
detector, so it classifies as Distributor, not Customer. -/
theorem classifySheet_examples_counterexample :
    classifySheet ["Invoice", "Customer", "Product", "Qty", "Amount"] = .Payment ∧
    classifySheet ["Invoice", "Customer", "Product", "Qty", "Amount"] ≠ .Sales ∧
    classifySheet ["Name", "Mobile", "Village", "Taluka"] = .Distributor ∧
    classifySheet ["Name", "Mobile", "Village", "Taluka"] ≠ .Customer := by
  refine ⟨by decide, by decide, by decide, by decide⟩

set_option linter.unnecessarySeqFocus false in
/-- **C2 (amended).**  Sheet classification is a pure function of the
header list (hence deterministic), decided by the fixed precedence
Payment > Sales > Distributor > Customer among the kinds whose
keyword-substring score clears its threshold (Payment ≥ 2, Sales ≥ 2,
Distributor ≥ 1, Customer ≥ 2); on the claim's examples:
`["Invoice","Customer","Product","Qty","Amount"]` → Payment,
`["Name","Mobile","Village","Taluka"]` → Distributor,
`["Mantri","Sabhasad","Village","Taluka"]` → Distributor, and
`["Invoice","Amount","Date","Method"]` → Payment. -/
theorem classifySheet_amended :
    (∀ cols : List String,
      (classifySheet cols = .Payment ↔ 2 ≤ paymentScore cols) ∧
      (classifySheet cols = .Sales ↔
        paymentScore cols < 2 ∧ 2 ≤ salesScore cols) ∧
      (classifySheet cols = .Distributor ↔
        paymentScore cols < 2 ∧ salesScore cols < 2 ∧ 1 ≤ distributorScore cols) ∧
      (classifySheet cols = .Customer ↔
        paymentScore cols < 2 ∧ salesScore cols < 2 ∧ distributorScore cols < 1 ∧
          2 ≤ customerScore cols) ∧
      (classifySheet cols = .Unknown ↔
        paymentScore cols < 2 ∧ salesScore cols < 2 ∧ distributorScore cols < 1 ∧
          customerScore cols < 2)) ∧
    classifySheet ["Invoice", "Customer", "Product", "Qty", "Amount"] = .Payment ∧
    classifySheet ["Name", "Mobile", "Village", "Taluka"] = .Distributor ∧
    classifySheet ["Mantri", "Sabhasad", "Village", "Taluka"] = .Distributor ∧
    classifySheet ["Invoice", "Amount", "Date", "Method"] = .Payment := by
  refine ⟨?_, by decide, by decide, by decide, by decide⟩
  intro cols
  unfold classifySheet isPaymentSheet isSalesSheet isDistributorSheet isCustomerSheet
  split_ifs with h1 h2 h3 h4 <;>
    simp_all [decide_eq_true_eq] <;> omega

/-! ## Claim C9: last-resort customer fallback for unknown sheets -/

/-- **C9 (counterexample).**  A sheet whose headers clear no classification
threshold (kind `Unknown`) is *not* given a last-resort Customer
extraction by the import orchestrator: the effective `process_excel_file`
dispatches no processor for it (its `else` branch only prints
"Unknown sheet type"). -/
theorem excelDispatch_unknown_counterexample :
    classifySheet ["AAA"] = .Unknown ∧ excelDispatch ["AAA"] = none := by
  refine ⟨by decide, by decide⟩

/-- **C9 (amended).**  For a sheet whose headers clear no classification
threshold, the file-level orchestrator `process_excel_file` (the entry
point invoked by the import pages) leaves the sheet unprocessed, while the
helper `process_single_sheet` — which no caller in the repository invokes —
does fall back to Customer extraction on it. -/
theorem unknown_sheet_dispatch_amended (cols : List String)
    (h : classifySheet cols = .Unknown) :
    excelDispatch cols = none ∧ singleSheetDispatch cols = .Customer := by
  constructor
  · unfold excelDispatch
    rw [h]
  · unfold classifySheet at h
    split_ifs at h with h1 h2 h3 h4
    unfold singleSheetDispatch
    rw [if_neg h2, if_neg h4, if_neg h3]

/-- Witness for `unknown_sheet_dispatch_amended` at the header list
`["XYZ"]`, which matches no keyword of any kind. -/
theorem unknown_sheet_dispatch_amended_witness :
    excelDispatch ["XYZ"] = none ∧ singleSheetDispatch ["XYZ"] = .Customer :=
  unknown_sheet_dispatch_amended ["XYZ"] (by decide)

/-! ## Claim C10: silent skipping of header-looking rows -/

/-- The string rendering of a row's first cell (`str(row.iloc[0])` with
`""` for a null cell). -/
def firstCellString (row : Row) : String :=
  match row with
  | [] => ""
  | (_, c) :: _ => c.getD ""

/-- **C10.**  For every row of every classified sheet kind, the row is
silently skipped — the state is unchanged and the outcome is `skipped`,
not a counted rejection — whenever its first cell, upper-cased, contains
any of the substrings DATE, VILLAGE, TALUKA, DISTRICT, MANTRI, SABHASAD,
CONTACT, TOTAL, SR, NO, NAME; so a genuine data row whose first cell
merely contains one of these substrings is dropped from the import. -/
theorem header_row_silent_skip :
    (∀ row : Row, isHeaderRow row = true ↔
      (row = [] ∨ ∃ ind ∈ headerIndicators,
        strContains ind (strUpper (firstCellString row)) = true)) ∧
    (∀ (db : DB) (defInv mm yy today : String) (codes : List String) (row : Row),
      isHeaderRow row = true →
      processSalesRow db defInv mm yy today codes row = (db, .skipped)) ∧
    (∀ (db : DB) (today : String) (row : Row), isHeaderRow row = true →
      processPaymentRow db today row = (db, .skipped)) ∧
    (∀ (db : DB) (row : Row), isHeaderRow row = true →
      processDistributorRow db row = (db, .skipped)) ∧
    (∀ (db : DB) (genCodes : List String) (row : Row), isHeaderRow row = true →
      processCustomerRow db genCodes row = (db, .skipped)) := by
  refine ⟨?_, ?_, ?_, ?_, ?_⟩
  · intro row
    cases row with
    | nil => simp [isHeaderRow]
    | cons p rest =>
      simp [isHeaderRow, firstCellString, List.any_eq_true]
  · intro db defInv mm yy today codes row h
    unfold processSalesRow
    rw [h]
    rfl
  · intro db today row h
    unfold processPaymentRow
    rw [h]
    rfl
  · intro db row h
    unfold processDistributorRow
    rw [h]
    rfl
  · intro db genCodes row h
    unfold processCustomerRow
    rw [h]
    rfl

/-- Witness for `header_row_silent_skip`: a sales data row whose first
cell is the invoice text `"NO-123"` (upper-cased it contains `NO`) is
silently dropped. -/
theorem header_row_silent_skip_witness :
    processSalesRow (emptyDB []) "INV_X" "01" "25" "2025-01-12" ["C1"]
      [("INVOICE", some "NO-123"), ("CUSTOMER", some "Ram")] =
      (emptyDB [], .skipped) :=
  header_row_silent_skip.2.1 (emptyDB []) "INV_X" "01" "25" "2025-01-12" ["C1"]
    [("INVOICE", some "NO-123"), ("CUSTOMER", some "Ram")] (by decide)

/-! ## Claim C1: idempotence of re-import -/

/-- A distributor data row (the columns of the distributor sheets: serial
number, village, taluka, district, mantri name/mobile, sabhasad count,
contacts in group). -/
def c1Row : Row :=
  [("SR", some "1"), ("VILLAGE", some "Rampura"), ("TALUKA", some "Anklav"),
   ("DISTRICT", some "Anand"), ("MANTRI NAME", some "Ram"),
   ("MANTRI MOBILE", some "9900"), ("SABHASAD", some "10"),
   ("CONTACT IN GROUP", some "5")]

/-- **C1 (violation).**  Importing the same distributor sheet twice doubles
the distributor row count: `process_distributor_sheet` persists with
`INSERT OR REPLACE INTO distributors`, but the `distributors` table has no
`UNIQUE` column, so the statement always inserts and the re-imported row
is *not* resolved to the existing `(name, village, taluka)` record.  By
contrast the repository's own `add_distributor` — which the sheet
processor bypasses — would have deduplicated the same data (third
conjunct). -/
theorem distributor_reimport_duplicates :
    (processDistributorSheet (emptyDB []) [c1Row]).distributors.length = 1 ∧
    (processDistributorSheet (processDistributorSheet (emptyDB []) [c1Row])
      [c1Row]).distributors.length = 2 ∧
    (addDistributor (processDistributorSheet (emptyDB []) [c1Row])
      "Rampura - Anklav" "Rampura" "Anklav" "Anand" "Ram" "9900" 10
      5).1.distributors.length = 1 := by
  refine ⟨by decide, by decide, by decide⟩

/-! ## Claim C3: invoice number generation -/

/-- Modelled from the spec's words, for refinement comparison only:
"serial is the max existing serial for the current month/year bucket + 1,
zero-padded to 3 digits". -/
def specGenInvoiceNumber (pfx mm yy : String) (invoices : List String) : String :=
  let pat := pfx ++ mm ++ yy
  let serials := (invoices.filter (fun inv => pat.data.isPrefixOf inv.data)).filterMap
    (fun inv => parsePyNat (inv.data.drop (pfx.data.length + 4)))
  pfx ++ mm ++ yy ++ String.mk (padNat 3 (serials.foldl max 0 + 1))

/-- **C3 (counterexample).**  The serial is *not* the maximum existing
serial in the month/year bucket plus one: the query takes the last
*inserted* matching invoice (`ORDER BY sale_id DESC LIMIT 1`).  With
bucket contents `[INVCL0125005, INVCL0125002]` (in insertion order) the
code generates `INVCL0125003`, while the spec's max-based rule gives
`INVCL0125006`. -/
theorem genInvoiceNumber_counterexample :
    genInvoiceNumber "INVCL" "01" "25" ["INVCL0125005", "INVCL0125002"] =
      "INVCL0125003" ∧
    specGenInvoiceNumber "INVCL" "01" "25" ["INVCL0125005", "INVCL0125002"] =
      "INVCL0125006" ∧
    genInvoiceNumber "INVCL" "01" "25" ["INVCL0125005", "INVCL0125002"] ≠
      specGenInvoiceNumber "INVCL" "01" "25" ["INVCL0125005", "INVCL0125002"] := by
  refine ⟨by decide, by decide, by decide⟩

theorem padNat_not_ws (w n : ℕ) : ∀ c ∈ padNat w n, isWs c = false := by
  intro c hc
  rcases mem_padNat_digitCh w n c hc with ⟨k, hk, rfl⟩
  interval_cases k <;> rfl

theorem parsePyNat_padNat (w n : ℕ) : parsePyNat (padNat w n) = some n := by
  unfold parsePyNat
  rw [pyStrip_eq_self _ (padNat_not_ws w n), parseNatL_padNat]

/-- The serial number computed by `genInvoiceNumber` (extracted for
reasoning). -/
def invoiceSerial (pfx mm yy : String) (invoices : List String) : ℕ :=
  match (invoices.filter
      (fun inv => (pfx ++ mm ++ yy).data.isPrefixOf inv.data)).getLast? with
  | none => 1
  | some last =>
    match parsePyNat (last.data.drop (pfx.data.length + 4)) with
    | some s => s + 1
    | none => 1

theorem genInvoiceNumber_eq (pfx mm yy : String) (invoices : List String) :
    genInvoiceNumber pfx mm yy invoices =
      pfx ++ mm ++ yy ++ String.mk (padNat 3 (invoiceSerial pfx mm yy invoices)) :=
  rfl

/-- **C3 (amended).**  Under sequential non-concurrent calls within a fixed
month/year, every generated invoice number has the form
`prefix ++ MM ++ YY ++ serial` with the serial zero-padded to 3 digits,
and when the generated invoice is recorded as a sale before the next call
(as the sales pipeline does), the next generated serial is exactly the
previous one plus one — so successive serials are strictly increasing.
(The serial continues from the most recently *inserted* invoice of the
bucket, not the maximum; a serial that fails to parse restarts the count
at 1, and the timestamp fallback fires only on database errors.) -/
theorem genInvoiceNumber_amended (pfx mm yy : String) (invoices : List String)
    (hmm : mm.data.length = 2) (hyy : yy.data.length = 2) :
    ∃ s : ℕ,
      genInvoiceNumber pfx mm yy invoices =
        pfx ++ mm ++ yy ++ String.mk (padNat 3 s) ∧
      genInvoiceNumber pfx mm yy
          (invoices ++ [genInvoiceNumber pfx mm yy invoices]) =
        pfx ++ mm ++ yy ++ String.mk (padNat 3 (s + 1)) ∧
      s < s + 1 := by
  refine ⟨invoiceSerial pfx mm yy invoices, genInvoiceNumber_eq pfx mm yy invoices,
    ?_, Nat.lt_succ_self _⟩
  set g := genInvoiceNumber pfx mm yy invoices with hg
  set s := invoiceSerial pfx mm yy invoices with hs
  have hgdata : g.data = (pfx ++ mm ++ yy).data ++ padNat 3 s := by
    rw [hg, genInvoiceNumber_eq, String.data_append, ← hs]
  have hpref : (pfx ++ mm ++ yy).data.isPrefixOf g.data = true := by
    rw [List.isPrefixOf_iff_prefix, hgdata]
    exact List.prefix_append _ _
  rw [genInvoiceNumber_eq]
  have hser : invoiceSerial pfx mm yy (invoices ++ [g]) = s + 1 := by
    unfold invoiceSerial
    rw [List.filter_append]
    have hpref2 : (pfx.data ++ (mm.data ++ yy.data)).isPrefixOf g.data = true := by
      have := hpref
      simp only [String.data_append, List.append_assoc] at this
      exact this
    have hfg : List.filter
        (fun inv => (pfx ++ mm ++ yy).data.isPrefixOf inv.data) [g] = [g] := by
      simp [List.filter, String.data_append, hpref2]
    rw [hfg, List.getLast?_concat]
    have hlen : pfx.data.length + 4 = ((pfx ++ mm ++ yy).data).length := by
      rw [String.data_append, String.data_append]
      simp [hmm, hyy]
    dsimp only
    rw [hgdata, hlen, List.drop_left, parsePyNat_padNat]
  rw [hser]

/-- Witness for `genInvoiceNumber_amended`: the empty store with prefix
`INVCL`, month `01`, year `25`. -/
theorem genInvoiceNumber_amended_witness :
    ∃ s : ℕ,
      genInvoiceNumber "INVCL" "01" "25" [] =
        "INVCL" ++ "01" ++ "25" ++ String.mk (padNat 3 s) ∧
      genInvoiceNumber "INVCL" "01" "25"
          ([] ++ [genInvoiceNumber "INVCL" "01" "25" []]) =
        "INVCL" ++ "01" ++ "25" ++ String.mk (padNat 3 (s + 1)) ∧
      s < s + 1 :=
  genInvoiceNumber_amended "INVCL" "01" "25" [] (by decide) (by decide)

/-! ## Claim C4: the customer resolver -/

/-- The store used by the C4 scenario: one customer holding
`customer_code = "C1"`, matching neither the mobile `123` nor the
(name, village) pair `("New", "W")` of the resolved input. -/
def c4DB : DB := ⟨[⟨1, "C1", "Ram", "99", "V", "T", "D"⟩], [], [], [], [], [], 2, 1, 1⟩

/-- **C4 (violation).**  The claimed resolver contract — retry up to five
times on a code collision with a regenerated code and return the new row
id, or the sentinel `-1` on collision exhaustion — is not what
`add_customer` implements.  On the C4 store, with candidate codes
`["C1", "C2", ...]` whose head collides with the stored code but whose
second candidate is fresh: the claimed contract (`specResolveCustomer`)
retries, inserts with `C2` and returns the new id `2`, while the code
(`addCustomer`) — whose collision `IntegrityError` is swallowed inside
`execute_query`, making the retry loop and the `-1` path unreachable —
inserts nothing, leaves the store unchanged, and returns `0` (the
fresh-connection `last_insert_rowid()`), not `-1`.  Moreover even an
entirely collision-free insert returns `0`, never the new row id.  Only
the duplicate-check path agrees: a mobile match resolves to the existing
id with the store unchanged. -/
theorem customer_resolver_retry_unreachable :
    specResolveCustomer c4DB ["C1", "C2", "C2", "C2", "C2"] "New" "123" "W" "T2" "D2" =
      ({c4DB with
          customers := c4DB.customers ++ [⟨2, "C2", "New", "123", "W", "T2", "D2"⟩],
          nextCustomerId := 3}, 2) ∧
    addCustomer c4DB ["C1", "C2", "C2", "C2", "C2"] "New" "123" "W" "T2" "D2" =
      (c4DB, 0) ∧
    (addCustomer c4DB ["C9"] "New" "123" "W" "T2" "D2").1.customers.length = 2 ∧
    (addCustomer c4DB ["C9"] "New" "123" "W" "T2" "D2").2 = 0 ∧
    addCustomer c4DB ["C9"] "Other" "99" "X" "T2" "D2" = (c4DB, 1) := by
  refine ⟨by decide, by decide, by decide, by decide, by decide⟩

/-! ## Claim C5: validation gates and row rejection -/

/-- The store used by the C5 scenarios: the seeded product catalogue entry
`5 LTR STEEL BARNI` only. -/
def c5DB : DB := emptyDB [("5 LTR STEEL BARNI", 4)]

/-- A sales row whose product name resolves to nothing. -/
def c5Row : Row :=
  [("INVOICE", some "B1"), ("CUSTOMER", some "Ram"),
   ("PRODUCT", some "Mystery Jar XL"), ("QTY", some "2"), ("AMOUNT", some "100")]

/-- **C5 (counterexample).**  A sales row rejected at the product gate is
*not* free of persisted effects: customer resolution runs before the
product lookup, so the rejected row has already inserted a new customer
(customers grow from 0 to 1), even though no sale is created. -/
theorem product_gate_persists_customer_counterexample :
    (processSalesRow c5DB "INV_X" "01" "25" "2025-01-12" ["C1"] c5Row).2 =
      .rejected "product not found" ∧
    c5DB.customers.length = 0 ∧
    (processSalesRow c5DB "INV_X" "01" "25" "2025-01-12" ["C1"] c5Row).1.customers.length
      = 1 ∧
    (processSalesRow c5DB "INV_X" "01" "25" "2025-01-12" ["C1"] c5Row).1.sales = [] := by
  refine ⟨by decide, by decide, by decide, by decide⟩

theorem getOrCreateCustomer_preserves (db : DB) (name : String)
    (codes : List String) :
    (getOrCreateCustomer db name codes).1.sales = db.sales ∧
    (getOrCreateCustomer db name codes).1.saleItems = db.saleItems ∧
    (getOrCreateCustomer db name codes).1.payments = db.payments ∧
    (getOrCreateCustomer db name codes).1.products = db.products ∧
    (getOrCreateCustomer db name codes).1.nextSaleId = db.nextSaleId := by
  unfold getOrCreateCustomer addCustomer
  cases db.customers.find? (fun c => c.name == name && c.mobile == "") with
  | some c => exact ⟨rfl, rfl, rfl, rfl, rfl⟩
  | none =>
    cases db.customers.find? (customerMatch name "" "") with
    | some c => exact ⟨rfl, rfl, rfl, rfl, rfl⟩
    | none =>
      dsimp only
      by_cases h : db.customers.any (fun c => c.code == codes.headD "") = true
      · rw [if_pos h]
        exact ⟨rfl, rfl, rfl, rfl, rfl⟩
      · rw [if_neg h]
        exact ⟨rfl, rfl, rfl, rfl, rfl⟩

theorem addSale_sid (db : DB) (inv : String) (cid : ℤ) (date : String)
    (items : List ItemInput) (pays : List PaymentInput) (notes : String)
    (db2 : DB) (sid : ℤ) :
    addSale db inv cid date items pays notes = some (db2, sid) →
    sid = db.nextSaleId := by
  unfold addSale
  split
  · intro h
    exact Option.noConfusion h
  · intro h
    dsimp only at h
    simp only [Option.some.injEq, Prod.mk.injEq] at h
    exact h.2.symm

/-- Case analysis of one sales row: either it was fully processed — a sale
with a positive id was created — or the stores of sales, sale items and
payments are untouched. -/
theorem processSalesRow_cases (db : DB) (defInv mm yy today : String)
    (codes : List String) (row : Row) (h0 : 0 < db.nextSaleId) :
    (∃ sid, (processSalesRow db defInv mm yy today codes row).2 = .processed sid ∧
      0 < sid) ∨
    ((processSalesRow db defInv mm yy today codes row).1.sales = db.sales ∧
     (processSalesRow db defInv mm yy today codes row).1.saleItems = db.saleItems ∧
     (processSalesRow db defInv mm yy today codes row).1.payments = db.payments) := by
  unfold processSalesRow
  split
  · exact .inr ⟨rfl, rfl, rfl⟩
  · dsimp only
    by_cases h1 : ((extractValue row "customer" 1).getD "Unknown Customer" == "" ||
        (extractValue row "customer" 1).getD "Unknown Customer" ==
          "Unknown Customer") = true
    · rw [if_pos h1]
      exact .inr ⟨rfl, rfl, rfl⟩
    · rw [if_neg h1]
      by_cases h2 : pyLe (dpSafeFloat (match extractValue row "quantity" 3 with
          | some s => Cell.str s | none => Cell.num (.finite 0))) (.finite 0) = true
      · rw [if_pos h2]
        exact .inr ⟨rfl, rfl, rfl⟩
      · rw [if_neg h2]
        by_cases h3 : pyLe (dpSafeFloat (match extractValue row "amount" 4 with
            | some s => Cell.str s | none => Cell.num (.finite 0))) (.finite 0) = true
        · rw [if_pos h3]
          exact .inr ⟨rfl, rfl, rfl⟩
        · rw [if_neg h3]
          obtain ⟨hs, hi, hp, _, hn⟩ := getOrCreateCustomer_preserves db
            ((extractValue row "customer" 1).getD "Unknown Customer") codes
          rcases hoc : getOrCreateCustomer db
              ((extractValue row "customer" 1).getD "Unknown Customer") codes with
            ⟨db1, ocid⟩
          rw [hoc] at hs hi hp hn
          dsimp only at hs hi hp hn
          cases ocid with
          | none => exact .inr ⟨hs, hi, hp⟩
          | some customerId =>
            dsimp only
            by_cases hzero : (customerId == 0) = true
            · rw [if_pos hzero]
              exact .inr ⟨hs, hi, hp⟩
            · rw [if_neg hzero]
              rcases hprod : getProductId db1
                  ((extractValue row "product" 2).getD "Unknown Product") with
                _ | productId
              · dsimp only
                exact .inr ⟨hs, hi, hp⟩
              · dsimp only
                rcases hadd : addSale db1 _ customerId today _ [] "" with _ | r
                · dsimp only
                  exact .inr ⟨hs, hi, hp⟩
                · obtain ⟨db2, sid⟩ := r
                  have hsid : sid = db1.nextSaleId :=
                    addSale_sid db1 _ customerId today _ [] "" db2 sid hadd
                  have hpos : 0 < sid := by rw [hsid, hn]; exact h0
                  dsimp only
                  rw [if_pos hpos]
                  exact .inl ⟨sid, rfl, hpos⟩

/-- **C5 (amended).**  Every sales row that fails a validation gate —
customer name empty or the default placeholder, quantity ≤ 0, amount ≤ 0,
unresolvable product, or sale-insertion failure — is rejected with a
logged reason and persists *no sale, sale item or payment* (though
customer resolution, which precedes the product gate, may already have
created a customer); a payment row whose extracted invoice number matches
no existing sale persists nothing at all (and, unlike the sales gates, is
dropped without a logged reason); and sheet processing always continues
with the next row. -/
theorem row_rejection_amended :
    (∀ (db : DB) (defInv mm yy today : String) (codes : List String) (row : Row)
        (reason : String), 0 < db.nextSaleId →
      (processSalesRow db defInv mm yy today codes row).2 = .rejected reason →
      (processSalesRow db defInv mm yy today codes row).1.sales = db.sales ∧
      (processSalesRow db defInv mm yy today codes row).1.saleItems = db.saleItems ∧
      (processSalesRow db defInv mm yy today codes row).1.payments = db.payments) ∧
    (∀ (db : DB) (today : String) (row : Row),
      (processPaymentRow db today row).2 = .ignored →
      (processPaymentRow db today row).1 = db) ∧
    (∀ (db : DB) (today : String) (row : Row),
      (∀ s ∈ db.sales, s.invoiceNo ≠ (extractValue row "invoice" 0).getD "") →
      (processPaymentRow db today row).1 = db) ∧
    (∀ (db : DB) (defInv mm yy today : String) (codes : List String)
        (row : Row) (rows : List Row),
      processSalesSheet db defInv mm yy today codes (row :: rows) =
        processSalesSheet (processSalesRow db defInv mm yy today codes row).1
          defInv mm yy today codes rows) := by
  refine ⟨?_, ?_, ?_, ?_⟩
  · intro db defInv mm yy today codes row reason h0 houtcome
    rcases processSalesRow_cases db defInv mm yy today codes row h0 with
      ⟨sid, hsid, _⟩ | hunch
    · rw [houtcome] at hsid
      exact RowOutcome.noConfusion hsid
    · exact hunch
  · intro db today row h
    unfold processPaymentRow at h ⊢
    split
    · next hskip => rfl
    · next hskip =>
      rw [if_neg hskip] at h
      dsimp only at h ⊢
      split_ifs with hgate
      · rw [if_pos hgate] at h
        rcases hfind : db.sales.find? (fun s =>
            s.invoiceNo == (extractValue row "invoice" 0).getD "") with _ | s
        · rw [hfind]
        · rw [hfind] at h
          exact absurd h (by simp)
      · rfl
  · intro db today row h
    unfold processPaymentRow
    split
    · rfl
    · next hskip =>
      have hfind : db.sales.find? (fun s =>
          s.invoiceNo == (extractValue row "invoice" 0).getD "") = none := by
        refine List.find?_eq_none.mpr (fun s hsmem => ?_)
        simp only [Bool.not_eq_true]
        exact beq_eq_false_iff_ne.mpr (h s hsmem)
      dsimp only
      split_ifs with hgate
      · rw [hfind]
      · rfl
  · intro db defInv mm yy today codes row rows
    rfl

/-- A sales row with quantity `0`, failing the quantity gate. -/
def c5wRow : Row :=
  [("INVOICE", some "B2"), ("CUSTOMER", some "Ram"),
   ("PRODUCT", some "5 LTR STEEL BARNI"), ("QTY", some "0"), ("AMOUNT", some "100")]

/-- Witness for `row_rejection_amended`: the zero-quantity row is rejected
and persists no sale, sale item or payment. -/
theorem row_rejection_amended_witness :
    (processSalesRow c5DB "INV_X" "01" "25" "2025-01-12" ["C1"] c5wRow).1.sales =
      c5DB.sales ∧
    (processSalesRow c5DB "INV_X" "01" "25" "2025-01-12" ["C1"] c5wRow).1.saleItems =
      c5DB.saleItems ∧
    (processSalesRow c5DB "INV_X" "01" "25" "2025-01-12" ["C1"] c5wRow).1.payments =
      c5DB.payments :=
  row_rejection_amended.1 c5DB "INV_X" "01" "25" "2025-01-12" ["C1"] c5wRow
    "invalid quantity" (by decide) (by decide)

/-! ## Claim C6: sale totals and payment status -/

/-- **C6 (counterexample).**  `add_sale` called with an empty items list
creates a Sale with zero SaleItems — and, its total being `0`, the status
recomputation immediately marks it `Paid` — refuting "a Sale is created
atomically together with at least one SaleItem". -/
theorem addSale_empty_items_counterexample :
    (addSale (emptyDB []) "INV1" 1 "2025-01-12" [] [] "").map
        (fun r => (r.1.sales.length,
          (r.1.saleItems.filter (fun it => it.saleId == r.2)).length,
          r.1.sales.map (fun s => s.paymentStatus))) =
      some (1, 0, ["Paid"]) := by
  decide

theorem updatePaymentStatus_preserves (db : DB) (sid : ℤ) :
    (updatePaymentStatus db sid).saleItems = db.saleItems ∧
    (updatePaymentStatus db sid).payments = db.payments := by
  unfold updatePaymentStatus
  cases db.sales.find? (fun s => s.id == sid) with
  | none => exact ⟨rfl, rfl⟩
  | some s => exact ⟨rfl, rfl⟩

/-- `_update_payment_status` updates exactly the matched sale's status,
derived from its payments sum against its stored total. -/
theorem updatePaymentStatus_find (db : DB) (sid : ℤ) (s : Sale)
    (hfind : db.sales.find? (fun t => t.id == sid) = some s) :
    (updatePaymentStatus db sid).sales.find? (fun t => t.id == sid) =
      some {s with paymentStatus :=
        (if pyLe s.totalAmount
            (pySum ((db.payments.filter (fun p => p.saleId == sid)).map (·.amount)))
          then "Paid"
          else if pyLt (.finite 0)
            (pySum ((db.payments.filter (fun p => p.saleId == sid)).map (·.amount)))
          then "Partial" else "Pending")} := by
  unfold updatePaymentStatus
  rw [hfind]
  dsimp only
  rw [List.find?_map]
  set status := (if pyLe s.totalAmount
      (pySum ((db.payments.filter (fun p => p.saleId == sid)).map (·.amount)))
    then "Paid"
    else if pyLt (.finite 0)
      (pySum ((db.payments.filter (fun p => p.saleId == sid)).map (·.amount)))
    then "Partial" else "Pending") with hstatus
  have hcomp : ((fun t : Sale => t.id == sid) ∘
      (fun t : Sale => if t.id == sid then {t with paymentStatus := status} else t))
      = (fun t : Sale => t.id == sid) := by
    funext t
    by_cases ht : (t.id == sid) = true
    · simp only [Function.comp_apply, if_pos ht]
    · simp only [Function.comp_apply, if_neg ht]
  rw [hcomp, hfind]
  dsimp only [Option.map]
  rw [if_pos (List.find?_some hfind)]

/-- **C6 (amended).**  After every call of `add_sale` with a nonempty items
list on a store whose fresh sale id is unused, the stored sale's
`total_amount` equals the sum over its stored items of quantity × rate,
each stored item's amount is quantity × rate, the sale is created together
with exactly `items.length ≥ 1` SaleItems, and its `payment_status` is
recomputed from the sum of its stored payments against `total_amount`
(`Paid` when paid ≥ total, `Partial` when 0 < paid < total, `Pending`
otherwise); with an empty items list a sale with no items is created (see
the counterexample), which the pipeline's callers never do. -/
theorem addSale_spec (db : DB) (inv : String) (cid : ℤ) (date : String)
    (items : List ItemInput) (pays : List PaymentInput) (notes : String)
    (db2 : DB) (sid : ℤ)
    (hitems : items ≠ [])
    (hfs : ∀ s ∈ db.sales, s.id ≠ db.nextSaleId)
    (hfi : ∀ it ∈ db.saleItems, it.saleId ≠ db.nextSaleId)
    (hfp : ∀ p ∈ db.payments, p.saleId ≠ db.nextSaleId)
    (hadd : addSale db inv cid date items pays notes = some (db2, sid)) :
    ∃ s, db2.sales.find? (fun t => t.id == sid) = some s ∧
      (db2.saleItems.filter (fun it => it.saleId == sid)).length = items.length ∧
      0 < items.length ∧
      s.totalAmount = pySum ((db2.saleItems.filter (fun it => it.saleId == sid)).map
        (fun it => pyMul it.quantity it.rate)) ∧
      (∀ it ∈ db2.saleItems.filter (fun it => it.saleId == sid),
        it.amount = pyMul it.quantity it.rate) ∧
      s.paymentStatus =
        (if pyLe s.totalAmount
            (pySum ((db2.payments.filter (fun p => p.saleId == sid)).map (·.amount)))
          then "Paid"
          else if pyLt (.finite 0)
            (pySum ((db2.payments.filter (fun p => p.saleId == sid)).map (·.amount)))
          then "Partial" else "Pending") := by
  unfold addSale at hadd
  split at hadd
  · exact Option.noConfusion hadd
  · dsimp only at hadd
    simp only [Option.some.injEq, Prod.mk.injEq] at hadd
    obtain ⟨hdb2, hsid⟩ := hadd
    subst hsid
    set sale0 : Sale := ⟨db.nextSaleId, inv, cid, date,
      pySum (items.map (fun it => pyMul it.quantity it.rate)),
      pySum (items.map (·.liters)), "Pending", notes⟩ with hsale0
    set newItems : List SaleItem := items.map (fun it =>
      ⟨db.nextSaleId, it.productId, it.quantity, it.rate,
        pyMul it.quantity it.rate⟩) with hnewItems
    set newPays : List Payment := pays.map (fun p =>
      ⟨db.nextSaleId, p.date, p.method, p.amount, p.rrn, p.reference⟩) with hnewPays
    set db1 : DB := {db with
      sales := db.sales ++ [sale0],
      saleItems := db.saleItems ++ newItems,
      payments := db.payments ++ newPays,
      nextSaleId := db.nextSaleId + 1} with hdb1
    have hdb2' : db2 = updatePaymentStatus db1 db.nextSaleId := hdb2.symm
    have hfind1 : db1.sales.find? (fun t => t.id == db.nextSaleId) = some sale0 := by
      show (db.sales ++ [sale0]).find? (fun t => t.id == db.nextSaleId) = some sale0
      rw [List.find?_append]
      have hnone : db.sales.find? (fun t => t.id == db.nextSaleId) = none :=
        List.find?_eq_none.mpr (fun t ht => by
          simp only [Bool.not_eq_true]
          exact beq_eq_false_iff_ne.mpr (hfs t ht))
      rw [hnone]
      simp [List.find?]
    have hitemsFilter :
        db1.saleItems.filter (fun it => it.saleId == db.nextSaleId) = newItems := by
      show (db.saleItems ++ newItems).filter (fun it => it.saleId == db.nextSaleId)
        = newItems
      rw [List.filter_append]
      have h1 : db.saleItems.filter (fun it => it.saleId == db.nextSaleId) = [] :=
        List.filter_eq_nil_iff.mpr (fun it hmem => by
          simp only [Bool.not_eq_true]
          exact beq_eq_false_iff_ne.mpr (hfi it hmem))
      have h2 : newItems.filter (fun it => it.saleId == db.nextSaleId) = newItems :=
        List.filter_eq_self.mpr (fun it hmem => by
          rw [hnewItems] at hmem
          obtain ⟨it0, _, rfl⟩ := List.mem_map.mp hmem
          exact beq_self_eq_true _)
      rw [h1, h2, List.nil_append]
    have hpaysFilter :
        db1.payments.filter (fun p => p.saleId == db.nextSaleId) = newPays := by
      show (db.payments ++ newPays).filter (fun p => p.saleId == db.nextSaleId)
        = newPays
      rw [List.filter_append]
      have h1 : db.payments.filter (fun p => p.saleId == db.nextSaleId) = [] :=
        List.filter_eq_nil_iff.mpr (fun p hmem => by
          simp only [Bool.not_eq_true]
          exact beq_eq_false_iff_ne.mpr (hfp p hmem))
      have h2 : newPays.filter (fun p => p.saleId == db.nextSaleId) = newPays :=
        List.filter_eq_self.mpr (fun p hmem => by
          rw [hnewPays] at hmem
          obtain ⟨p0, _, rfl⟩ := List.mem_map.mp hmem
          exact beq_self_eq_true _)
      rw [h1, h2, List.nil_append]
    obtain ⟨hpresI, hpresP⟩ := updatePaymentStatus_preserves db1 db.nextSaleId
    have hitems2 :
        db2.saleItems.filter (fun it => it.saleId == db.nextSaleId) = newItems := by
      rw [hdb2', hpresI, hitemsFilter]
    have hpays2 :
        db2.payments.filter (fun p => p.saleId == db.nextSaleId) = newPays := by
      rw [hdb2', hpresP, hpaysFilter]
    have hfind2 := updatePaymentStatus_find db1 db.nextSaleId sale0 hfind1
    rw [hpaysFilter] at hfind2
    refine ⟨_, by rw [hdb2']; exact hfind2, ?_, ?_, ?_, ?_, ?_⟩
    · rw [hitems2, hnewItems, List.length_map]
    · cases items with
      | nil => exact absurd rfl hitems
      | cons a l => simp
    · show sale0.totalAmount = _
      rw [hitems2, hnewItems, List.map_map]
      rfl
    · intro it hmem
      rw [hitems2, hnewItems] at hmem
      obtain ⟨it0, _, rfl⟩ := List.mem_map.mp hmem
      rfl
    · show (if pyLe sale0.totalAmount (pySum (newPays.map (·.amount))) then "Paid"
        else if pyLt (.finite 0) (pySum (newPays.map (·.amount))) then "Partial"
        else "Pending") = _
      rw [hpays2]

/-- The single item of the C6 witness scenario. -/
def c6Item : ItemInput := ⟨4, .finite 2, .finite 680, .finite 0⟩

/-- The store state after the C6 witness call. -/
def c6DB2 : DB :=
  ⟨[], [], [], [⟨1, "I1", 1, "2025-01-12", .finite 1360, .finite 0, "Pending", ""⟩],
   [⟨1, 4, .finite 2, .finite 680, .finite 1360⟩], [], 1, 1, 2⟩

/-- Witness for `addSale_spec`: one item (product 4, quantity 2, rate 680)
sold on an empty store. -/
theorem addSale_spec_witness :
    ∃ s, c6DB2.sales.find? (fun t => t.id == 1) = some s ∧
      (c6DB2.saleItems.filter (fun it => it.saleId == 1)).length = [c6Item].length ∧
      0 < [c6Item].length ∧
      s.totalAmount = pySum ((c6DB2.saleItems.filter (fun it => it.saleId == 1)).map
        (fun it => pyMul it.quantity it.rate)) ∧
      (∀ it ∈ c6DB2.saleItems.filter (fun it => it.saleId == 1),
        it.amount = pyMul it.quantity it.rate) ∧
      s.paymentStatus =
        (if pyLe s.totalAmount
            (pySum ((c6DB2.payments.filter (fun p => p.saleId == 1)).map (·.amount)))
          then "Paid"
          else if pyLt (.finite 0)
            (pySum ((c6DB2.payments.filter (fun p => p.saleId == 1)).map (·.amount)))
          then "Partial" else "Pending") :=
  addSale_spec (emptyDB []) "I1" 1 "2025-01-12" [c6Item] [] "" c6DB2 1
    (by simp) (by simp [emptyDB]) (by simp [emptyDB]) (by simp [emptyDB]) (by decide)

/-! ## Claim C8: numeric safety -/

/-- The store and row of the C8 scenario: a known product, and quantity
and amount cells both holding the string `"inf"`. -/
def c8DB : DB := emptyDB [("5 LTR STEEL BARNI", 4)]

def c8Row : Row :=
  [("INVOICE", some "B1"), ("CUSTOMER", some "Ram Patel"),
   ("PRODUCT", some "5 LTR STEEL BARNI"), ("QTY", some "inf"),
   ("AMOUNT", some "inf")]

/-- **C8 (counterexample).**  The numeric parser does not map every
non-blank string either to a finite value or to `0`: Python
`float("inf")` succeeds, so `safe_float`/`_safe_float` return `+inf`; an
`inf` quantity and amount pass the `> 0` gates, the computed rate is
`inf/inf = NaN`, and the persisted sale's `total_amount` is NaN — so a
numeric result of the pipeline *can* be inf or NaN. -/
theorem numeric_parser_inf_counterexample :
    safe_float (.str "inf") = .posInf ∧
    dpSafeFloat (.str "inf") = .posInf ∧
    (processSalesRow c8DB "INV_X" "01" "25" "2025-01-12" ["C1"] c8Row).1.saleItems.map
        (·.rate) = [.nan] ∧
    (processSalesRow c8DB "INV_X" "01" "25" "2025-01-12" ["C1"] c8Row).1.sales.map
        (·.totalAmount) = [.nan] ∧
    (PyFloat.nan ≠ .finite 0) := by
  refine ⟨by decide, by decide, by decide, by decide, by decide⟩

/-- **C8 (amended).**  The numeric parsers are total (never raise) and
return `0.0` on blank input, on the sentinel strings, on a float `NaN`
cell and on every unparsable string; every division in the pipeline's
rate/conversion computations is guarded by a positive-denominator check,
so a zero (or non-positive) denominator yields `0` rather than `inf`/`NaN`
— in particular the demo conversion rate is a finite rational for all
inputs; however the parsers pass explicit non-finite numerals (`"inf"`,
`"nan"`) through, so pipeline results are only finite when the cell
values are. -/
theorem numeric_parser_amended :
    safe_float .na = .finite 0 ∧
    dpSafeFloat .na = .finite 0 ∧
    safe_float (.str "") = .finite 0 ∧
    safe_float (.str "NOT_AVAILABLE") = .finite 0 ∧
    safe_float (.str "_") = .finite 0 ∧
    safe_float (.num .nan) = .finite 0 ∧
    dpSafeFloat (.num .nan) = .finite 0 ∧
    (∀ s : String, pyFloatOfString s = none →
      safe_float (.str s) = .finite 0 ∧ dpSafeFloat (.str s) = .finite 0) ∧
    (∀ a q : PyFloat, pyLt (.finite 0) q = false → rateCalc a q = .finite 0) ∧
    (∀ a : PyFloat, rateCalc a (.finite 0) = .finite 0) ∧
    (∀ converted : ℕ, demoConversionRate converted 0 = .finite 0) ∧
    (∀ converted total : ℕ, ∃ q : ℚ, demoConversionRate converted total = .finite q) := by
  refine ⟨rfl, rfl, by decide, by decide, by decide, rfl, rfl, ?_, ?_, ?_, ?_, ?_⟩
  · intro s h
    constructor
    · unfold safe_float
      dsimp only
      split_ifs with hs
      · rfl
      · rw [h]
        rfl
    · unfold dpSafeFloat
      dsimp only
      rw [h]
      rfl
  · intro a q h
    unfold rateCalc
    rw [h]
    rfl
  · intro a
    unfold rateCalc
    rfl
  · intro converted
    rfl
  · intro converted total
    cases total with
    | zero => exact ⟨0, rfl⟩
    | succ t =>
      refine ⟨ratMul (ratDiv converted (t + 1 : ℕ)) 100, ?_⟩
      unfold demoConversionRate
      rw [if_pos (Nat.succ_pos t)]
      have hne : ((t + 1 : ℕ) : ℚ) ≠ 0 := by
        exact_mod_cast Nat.succ_ne_zero t
      unfold pyDiv
      dsimp only
      rw [if_neg hne]
      rfl

/-- Witness for `numeric_parser_amended`: the unparsable cell `"abc"` maps
to `0.0` in both parsers. -/
theorem numeric_parser_amended_witness :
    safe_float (.str "abc") = .finite 0 ∧ dpSafeFloat (.str "abc") = .finite 0 :=
  numeric_parser_amended.2.2.2.2.2.2.2.1 "abc" (by decide)

end SalesMgmt
